import Mathlib

/-!
Verification development for the staged CPL generation pipeline
(`src/services/cpl_devastador_protocol.py`, `src/services/enhanced_synthesis_engine.py`,
`src/routes/enhanced_workflow.py`).

Strings are modelled as `List Char` (`Str`).  Python primitives used by the code
(strip, split on newline, newline join, comma join, substring containment,
startswith, lower, slicing) are given as executable Lean functions with the
Python semantics.  `json.dumps` / `json.loads` are modelled by an executable serializer
and parser over a `Json` value type; the serializer emits non-ASCII characters
verbatim (CPython would escape them as `\uXXXX`; both forms parse back to the
same value, and no claim inspects the escaped text itself).
-/

set_option maxRecDepth 10000

abbrev Str := List Char

def str (s : String) : Str := s.data

/-- The apostrophe character (written via its code point). -/
def apo : Char := Char.ofNat 39

/-- Whitespace as recognized by Python `str.strip()` for the ASCII range. -/
def isPySpace (c : Char) : Bool :=
  c = ' ' || c = '\t' || c = '\n' || c = '\x0d' || c = '\x0b' || c = '\x0c'

/-- Python str.strip. -/
def pyStrip (s : Str) : Str :=
  ((s.dropWhile isPySpace).reverse.dropWhile isPySpace).reverse

/-- Python str.split at newlines. -/
def splitNL : Str → List Str
  | [] => [[]]
  | c :: cs =>
    if c = '\n' then [] :: splitNL cs
    else
      match splitNL cs with
      | [] => [[c]]
      | l :: ls => (c :: l) :: ls

/-- Python newline join of parts. -/
def joinNL : List Str → Str
  | [] => []
  | [x] => x
  | x :: xs => x ++ '\n' :: joinNL xs

/-- Python comma-space join over a list of strings. -/
def joinComma : List Str → Str
  | [] => []
  | [x] => x
  | x :: xs => x ++ ',' :: ' ' :: joinComma xs

/-- Python substring containment (the in operator). -/
def infixOf (pat : Str) : Str → Bool
  | [] => pat.isEmpty
  | c :: cs => pat.isPrefixOf (c :: cs) || infixOf pat cs

/-- Python str.lower for the characters appearing in the inputs. -/
def pyLower (s : Str) : Str := s.map Char.toLower

/-- Number of bytes of the UTF-8 encoding of a string (`os.path.getsize` of a
file written with utf-8 encoding). -/
def byteLen (s : Str) : Nat := (s.map Char.utf8Size).sum

/-- Python decimal rendering of a natural number. -/
def natStr (n : Nat) : Str := (Nat.repr n).data

/-- JSON values (the subset produced and consumed by the code under study:
the payloads contain strings, arrays, objects; booleans/null/integers appear
through the repair pass). -/
inductive Json where
  | str (s : Str)
  | b (v : Bool)
  | null
  | num (n : Int)
  | arr (xs : List Json)
  | obj (kvs : List (Str × Json))

/-- Escaping of one character inside a serialized JSON string
(`json.dumps` with non-ASCII characters emitted verbatim). -/
def dumpChar (c : Char) : Str :=
  if c = '"' then ['\\', '"']
  else if c = '\\' then ['\\', '\\']
  else if c = '\n' then ['\\', 'n']
  else if c = '\t' then ['\\', 't']
  else if c = '\x0d' then ['\\', 'r']
  else [c]

def dumpStr (s : Str) : Str := '"' :: (s.flatMap dumpChar) ++ ['"']

/-- Comma-space join over already serialized pieces. -/
def joinCS : List Str → Str
  | [] => []
  | [x] => x
  | x :: xs => x ++ ',' :: ' ' :: joinCS xs

/-- `json.dumps` body, fuelled on nesting depth (structural recursion so that
the kernel can evaluate it; the payloads under study nest at most 4 deep). -/
def dumpsR (fuel : Nat) (j : Json) : Str :=
  match fuel with
  | 0 => []
  | .succ f =>
    match j with
    | .str s => dumpStr s
    | .b true => str "true"
    | .b false => str "false"
    | .null => str "null"
    | .num n => (Int.repr n).data
    | .arr xs => '[' :: joinCS (xs.map (dumpsR f)) ++ [']']
    | .obj kvs =>
      '{' :: joinCS (kvs.map (fun kv => dumpStr kv.1 ++ ':' :: ' ' :: dumpsR f kv.2)) ++ ['}']

/-- `json.dumps`. -/
def dumps (j : Json) : Str := dumpsR 100 j

/-- Whitespace skipped by the JSON parser (`json.loads`): space, tab, LF, CR. -/
def isJsonWs (c : Char) : Bool :=
  c = ' ' || c = '\t' || c = '\n' || c = '\x0d'

def skipWs (s : Str) : Str := s.dropWhile isJsonWs

/-- Parse the body of a JSON string after the opening quote; returns the
content and the remainder after the closing quote. -/
def parseStrBody : Str → Option (Str × Str)
  | [] => none
  | c :: cs =>
    if c = '"' then some ([], cs)
    else if c = '\\' then
      match cs with
      | [] => none
      | e :: cs' =>
        let dec : Option Char :=
          if e = '"' then some '"'
          else if e = '\\' then some '\\'
          else if e = '/' then some '/'
          else if e = 'n' then some '\n'
          else if e = 't' then some '\t'
          else if e = 'r' then some '\x0d'
          else if e = 'b' then some '\x08'
          else if e = 'f' then some '\x0c'
          else none
        match dec with
        | none => none
        | some d =>
          match parseStrBody cs' with
          | none => none
          | some (body, rest) => some (d :: body, rest)
    else
      match parseStrBody cs with
      | none => none
      | some (body, rest) => some (c :: body, rest)

def parseDigits : Str → Nat → Option (Nat × Str)
  | [], acc => some (acc, [])
  | c :: cs, acc =>
    if c.isDigit then
      match parseDigits cs (acc * 10 + (c.toNat - 48)) with
      | some r => some r
      | none => none
    else some (acc, c :: cs)

/-- Parse an integer JSON number (the payloads under study use no floats). -/
def parseNum : Str → Option (Json × Str)
  | [] => none
  | c :: cs =>
    if c = '-' then
      match cs with
      | d :: _ =>
        if d.isDigit then
          match parseDigits cs 0 with
          | some (n, rest) => some (.num (-(n : Int)), rest)
          | none => none
        else none
      | [] => none
    else if c.isDigit then
      match parseDigits (c :: cs) 0 with
      | some (n, rest) => some (.num (n : Int), rest)
      | none => none
    else none

/-- Parser modes: a full value, the members of an object, or the elements of
an array (`first` marks that nothing has been consumed yet, so a closing
bracket yields the empty collection). -/
inductive PMode where
  | val
  | members (first : Bool)
  | elems (first : Bool)

/-- The JSON value parser, fuelled (structural recursion on the fuel so the
kernel can evaluate it). -/
def parseRun (fuel : Nat) (mode : PMode) (s : Str) : Option (Json × Str) :=
  match fuel with
  | 0 => none
  | .succ f =>
    match mode with
    | .val =>
      match skipWs s with
      | [] => none
      | c :: rest =>
        if c = '"' then
          match parseStrBody rest with
          | some (body, rest') => some (.str body, rest')
          | none => none
        else if c = '{' then parseRun f (.members true) (skipWs rest)
        else if c = '[' then parseRun f (.elems true) (skipWs rest)
        else if c = 't' then
          if (str "rue").isPrefixOf rest then some (.b true, rest.drop 3) else none
        else if c = 'f' then
          if (str "alse").isPrefixOf rest then some (.b false, rest.drop 4) else none
        else if c = 'n' then
          if (str "ull").isPrefixOf rest then some (.null, rest.drop 3) else none
        else parseNum (c :: rest)
    | .members first =>
      match s with
      | [] => none
      | c :: rest =>
        if c = '}' && first then some (.obj [], rest)
        else if c = '"' then
          match parseStrBody rest with
          | none => none
          | some (key, r1) =>
            match skipWs r1 with
            | ':' :: r2 =>
              match parseRun f .val r2 with
              | none => none
              | some (v, r3) =>
                match skipWs r3 with
                | ',' :: r4 =>
                  match parseRun f (.members false) (skipWs r4) with
                  | some (.obj kvs, r5) => some (.obj ((key, v) :: kvs), r5)
                  | _ => none
                | '}' :: r4 => some (.obj [(key, v)], r4)
                | _ => none
            | _ => none
        else none
    | .elems first =>
      match s with
      | [] => none
      | c :: _ =>
        if c = ']' && first then some (.arr [], s.drop 1)
        else
          match parseRun f .val s with
          | none => none
          | some (v, r1) =>
            match skipWs r1 with
            | ',' :: r2 =>
              match parseRun f (.elems false) (skipWs r2) with
              | some (.arr xs, r3) => some (.arr (v :: xs), r3)
              | _ => none
            | ']' :: r2 => some (.arr [v], r2)
            | _ => none

def parseValue (fuel : Nat) (s : Str) : Option (Json × Str) :=
  parseRun fuel .val s

/-- `json.loads`: parse a complete JSON document (one value plus surrounding
whitespace). -/
def jsonLoads (s : Str) : Option Json :=
  match parseValue (s.length + 1) s with
  | some (v, rest) => if (skipWs rest).isEmpty then some v else none
  | none => none

example : jsonLoads (str "\x7b\"a\": [1, true, null, \"x\"]\x7d")
    = some (.obj [(str "a", .arr [.num 1, .b true, .null, .str (str "x")])]) := by
  rfl

example : jsonLoads (dumps (.obj [(str "a", .arr [.str (str "b c"), .num (-2)])]))
    = some (.obj [(str "a", .arr [.str (str "b c"), .num (-2)])]) := by rfl

/-! ### Fallback payloads and prompt templates (extracted verbatim from the source) -/

def tpl_fase1_0 : Str := str "\n        # PROTOCOLO DE GERAÇÃO DE CPLs DEVASTADORES - FASE 1\n        \n        ## CONTEXTO\n        Você é o núcleo estratégico do sistema ARQV30 Enhanced v3.0. Sua missão é criar um EVENTO MAGNÉTICO devastador que mova o avatar da paralisia para a ação obsessiva.\n        \n        ## DADOS DE ENTRADA\n        - Tema: "
def tpl_fase1_1 : Str := str "\n        - Segmento: "
def tpl_fase1_2 : Str := str "\n        - Público: "
def tpl_fase1_3 : Str := str "\n        - Termos-chave: "
def tpl_fase1_4 : Str := str "\n        - Objeções principais: "
def tpl_fase1_5 : Str := str "\n        - Tendências: "
def tpl_fase1_6 : Str := str "\n        - Casos de sucesso: "
def tpl_fase1_7 : Str := str "\n        \n        ## TAREFA: ARQUITETURA DO EVENTO MAGNÉTICO\n        \n        Crie UMA versão de evento (escolha a mais devastadora):\n        \n        Formato JSON OBRIGATÓRIO:\n        \x7b\n            \"versao_escolhida\": \"A\",\n            \"nome_evento\": \"Nome Final Magnético\",\n            \"promessa_central\": \"Promessa específica paralisante\",\n            \"arquitetura_cpls\": \x7b\n                \"cpl1\": \"Título CPL1 - Objetivo\",\n                \"cpl2\": \"Título CPL2 - Objetivo\", \n                \"cpl3\": \"Título CPL3 - Objetivo\",\n                \"cpl4\": \"Título CPL4 - Objetivo\"\n            \x7d,\n            \"mapeamento_psicologico\": \x7b\n                \"gatilho_principal\": \"Descrição do gatilho\",\n                \"jornada_emocional\": \"Mapeamento da jornada\",\n                \"pontos_pressao\": [\"Ponto 1\", \"Ponto 2\", \"Ponto 3\"]\n            \x7d,\n            \"justificativa\": \"Por que esta versão é devastadora\"\n        \x7d\n        \n        RESPONDA APENAS COM O JSON. SEM TEXTO ADICIONAL!\n        "

def tpl_fase2_0 : Str := str "\n        # PROTOCOLO DE GERAÇÃO DE CPLs DEVASTADORES - FASE 2: CPL1\n        \n        ## CONTEXTO DO EVENTO\n        - Nome: "
def tpl_fase2_1 : Str := str "\n        - Promessa: "
def tpl_fase2_2 : Str := str "\n        - Objetivo CPL1: "
def tpl_fase2_3 : Str := str "\n        \n        ## TAREFA: CPL1 - A OPORTUNIDADE PARALISANTE\n        \n        Formato JSON OBRIGATÓRIO:\n        \x7b\n            \"titulo\": \"CPL1 - Título específico\",\n            \"objetivo\": \"Objetivo claro\",\n            \"conteudo_principal\": \"Conteúdo detalhado\",\n            \"loops_abertos\": [\"Loop 1\", \"Loop 2\", \"Loop 3\"],\n            \"quebras_padrao\": [\"Quebra 1\", \"Quebra 2\", \"Quebra 3\"],\n            \"provas_sociais\": [\"Prova 1\", \"Prova 2\", \"Prova 3\"],\n            \"elementos_cinematograficos\": [\"Elemento 1\", \"Elemento 2\"],\n            \"gatilhos_psicologicos\": [\"Gatilho 1\", \"Gatilho 2\"],\n            \"call_to_action\": \"CTA específico para CPL2\"\n        \x7d\n        \n        RESPONDA APENAS COM O JSON. SEM TEXTO ADICIONAL!\n        "

def tpl_fase3_0 : Str := str "\n        # PROTOCOLO - FASE 3: CPL2\n        \n        ## CONTINUIDADE DO CPL1\n        - Loops: "
def tpl_fase3_1 : Str := str "\n        \n        Formato JSON OBRIGATÓRIO:\n        \x7b\n            \"titulo\": \"CPL2 - Título\",\n            \"objetivo\": \"Objetivo\",\n            \"conteudo_principal\": \"Conteúdo\",\n            \"loops_mantidos\": [\"Loop 1\", \"Loop 2\"],\n            \"quebras_padrao\": [\"Quebra 1\", \"Quebra 2\"],\n            \"casos_transformacao\": [\"Caso 1\", \"Caso 2\"],\n            \"elementos_cinematograficos\": [\"Elem 1\", \"Elem 2\"],\n            \"gatilhos_psicologicos\": [\"Gatilho 1\", \"Gatilho 2\"],\n            \"call_to_action\": \"CTA para CPL3\"\n        \x7d\n        \n        RESPONDA APENAS COM O JSON!\n        "

def tpl_fase4_0 : Str := str "\n        # PROTOCOLO - FASE 4: CPL3\n        \n        Formato JSON OBRIGATÓRIO:\n        \x7b\n            \"titulo\": \"CPL3 - Nome do Método\",\n            \"objetivo\": \"Objetivo\",\n            \"nome_metodo\": \"Nome do método\",\n            \"estrutura_passos\": [\"Passo 1\", \"Passo 2\", \"Passo 3\"],\n            \"faq_estrategico\": [\"FAQ 1\", \"FAQ 2\"],\n            \"justificativa_escassez\": \"Por que é limitado\",\n            \"loops_fechados\": [\"Loop fechado\"],\n            \"preparacao_decisao\": \"Preparação\",\n            \"call_to_action\": \"CTA para CPL4\"\n        \x7d\n        \n        RESPONDA APENAS COM O JSON!\n        "

def tpl_fase5_0 : Str := str "\n        # PROTOCOLO - FASE 5: CPL4\n        \n        Formato JSON OBRIGATÓRIO:\n        \x7b\n            \"titulo\": \"CPL4 - A Decisão Inevitável\",\n            \"objetivo\": \"Conversão máxima\",\n            \"stack_valor\": [\"Bônus 1\", \"Bônus 2\", \"Bônus 3\"],\n            \"precificacao\": \x7b\"valor_total\": \"1000\", \"valor_oferta\": \"297\"\x7d,\n            \"garantias\": [\"Garantia 1\", \"Garantia 2\"],\n            \"urgencia_final\": \"Razão urgência\",\n            \"fechamento\": \"Script fechamento\",\n            \"call_to_action\": \"CTA final\"\n        \x7d\n        \n        RESPONDA APENAS COM O JSON!\n        "

def payloadEvento : Json :=
  Json.obj [
    (str "versao_escolhida", Json.str (str "A")),
    (str "nome_evento", Json.str (str "Revolução Digital Devastadora")),
    (str "promessa_central", Json.str (str "Como transformar seu negócio em 4 dias usando estratégias que 99% ignora")),
    (str "arquitetura_cpls", Json.obj [
      (str "cpl1", Json.str (str "A Descoberta Chocante - Revelação que muda tudo")),
      (str "cpl2", Json.str (str "A Prova Impossível - Evidências irrefutáveis")),
      (str "cpl3", Json.str (str "O Caminho Revolucionário - Método único revelado")),
      (str "cpl4", Json.str (str "A Decisão Inevitável - Momento de transformação"))]),
    (str "mapeamento_psicologico", Json.obj [
      (str "gatilho_principal", Json.str (str "FOMO + Urgência + Exclusividade")),
      (str "jornada_emocional", Json.str (str "Curiosidade → Choque → Desejo → Ação")),
      (str "pontos_pressao", Json.arr [
        Json.str (str "Medo de ficar para trás"),
        Json.str (str "Desejo de transformação"),
        Json.str (str "Necessidade de resultados")])]),
    (str "justificativa", Json.str (str "Combina urgência temporal com exclusividade de método"))]

def payloadCpl1 : Json :=
  Json.obj [
    (str "titulo", Json.str (str "CPL1 - A Descoberta Que Muda Tudo")),
    (str "objetivo", Json.str (str "Revelar oportunidade única que gera FOMO visceral")),
    (str "conteudo_principal", Json.str (str "Revelação de estratégia secreta que poucos conhecem")),
    (str "loops_abertos", Json.arr [
      Json.str (str "Qual é o método secreto que será revelado?"),
      Json.str (str "Como isso pode transformar resultados em 4 dias?"),
      Json.str (str "Por que apenas 1% conhece essa estratégia?")]),
    (str "quebras_padrao", Json.arr [
      Json.str (str "Contrário ao que todos fazem"),
      Json.str (str "Método nunca revelado publicamente"),
      Json.str (str "Estratégia usada apenas por experts"),
      Json.str (str "Abordagem revolucionária"),
      Json.str (str "Técnica contra-intuitiva")]),
    (str "provas_sociais", Json.arr [
      Json.str (str "Resultados de clientes reais"),
      Json.str (str "Casos de sucesso documentados"),
      Json.str (str "Depoimentos autênticos"),
      Json.str (str "Dados de performance"),
      Json.str (str "Evidências visuais")]),
    (str "elementos_cinematograficos", Json.arr [
      Json.str (str "Abertura impactante com revelação"),
      Json.str (str "Construção de tensão gradual"),
      Json.str (str "Clímax com descoberta chocante"),
      Json.str (str "Gancho irresistível para CPL2")]),
    (str "gatilhos_psicologicos", Json.arr [
      Json.str (str "Curiosidade extrema"),
      Json.str (str "FOMO visceral"),
      Json.str (str "Exclusividade"),
      Json.str (str "Urgência temporal")]),
    (str "call_to_action", Json.str (str "Aguarde CPL2 para descobrir a prova impossível"))]

def payloadCpl2 : Json :=
  Json.obj [
    (str "titulo", Json.str (str "CPL2 - A Prova Que Ninguém Acredita")),
    (str "objetivo", Json.str (str "Apresentar evidências irrefutáveis da transformação")),
    (str "conteudo_principal", Json.str (str "Demonstração prática com resultados reais")),
    (str "loops_mantidos", Json.arr [
      Json.str (str "Como essa prova foi obtida?"),
      Json.str (str "Qual será o método completo?")]),
    (str "quebras_padrao", Json.arr [
      Json.str (str "Resultados que desafiam lógica"),
      Json.str (str "Prova visual incontestável"),
      Json.str (str "Método surpreendente")]),
    (str "casos_transformacao", Json.arr [
      Json.str (str "Screenshots de resultados"),
      Json.str (str "Vídeos de transformação"),
      Json.str (str "Dados antes/depois")]),
    (str "elementos_cinematograficos", Json.arr [
      Json.str (str "Revelação dramática da prova"),
      Json.str (str "Demonstração passo a passo"),
      Json.str (str "Gancho para o método completo")]),
    (str "gatilhos_psicologicos", Json.arr [
      Json.str (str "Incredulidade seguida de convencimento"),
      Json.str (str "Desejo de replicar resultado"),
      Json.str (str "Urgência de conhecer método")]),
    (str "call_to_action", Json.str (str "CPL3 revelará o caminho completo"))]

def payloadCpl3 : Json :=
  Json.obj [
    (str "titulo", Json.str (str "CPL3 - O Método Que Muda Tudo")),
    (str "objetivo", Json.str (str "Revelar o sistema completo de transformação")),
    (str "nome_metodo", Json.str (str "Sistema de Transformação Acelerada")),
    (str "estrutura_passos", Json.arr [
      Json.str (str "Passo 1: Diagnóstico Estratégico"),
      Json.str (str "Passo 2: Implementação do Framework"),
      Json.str (str "Passo 3: Otimização e Escala")]),
    (str "faq_estrategico", Json.arr [
      Json.str (str "Como implementar em meu negócio?"),
      Json.str (str "Quanto tempo leva para ver resultados?")]),
    (str "justificativa_escassez", Json.str (str "Vagas limitadas por questões de mentoria")),
    (str "loops_fechados", Json.arr [
      Json.str (str "Método completo revelado")]),
    (str "preparacao_decisao", Json.str (str "Preparado para transformação definitiva")),
    (str "call_to_action", Json.str (str "CPL4 será sua última chance de transformação"))]

def payloadCpl4 : Json :=
  Json.obj [
    (str "titulo", Json.str (str "CPL4 - Sua Última Chance de Transformação")),
    (str "objetivo", Json.str (str "Conversão máxima")),
    (str "stack_valor", Json.arr [
      Json.str (str "Bônus 1: Acesso vitalício"),
      Json.str (str "Bônus 2: Mentoria exclusiva"),
      Json.str (str "Bônus 3: Comunidade VIP")]),
    (str "precificacao", Json.obj [
      (str "valor_total", Json.str (str "R$ 2.997")),
      (str "valor_oferta", Json.str (str "R$ 997")),
      (str "economia", Json.str (str "R$ 2.000"))]),
    (str "garantias", Json.arr [
      Json.str (str "Garantia de 30 dias"),
      Json.str (str "Garantia de resultados")]),
    (str "urgencia_final", Json.str (str "Apenas 50 vagas disponíveis - encerrando em 48h")),
    (str "fechamento", Json.str (str "Momento de decisão definitiva para sua transformação")),
    (str "call_to_action", Json.str (str "AÇÃO IMEDIATA - Garanta sua vaga agora"))]

def payloadDefault : Json :=
  Json.obj [
    (str "status", Json.str (str "fallback_response")),
    (str "message", Json.str (str "Resposta estruturada básica gerada")),
    (str "data", Json.str (str "Conteúdo baseado em estrutura padrão"))]

/-! ### The CPL protocol (`src/services/cpl_devastador_protocol.py`) -/

/-- Python-level values reaching `_clean_json_response`: `None`, a string, or
some other object (with its truthiness, and a `str()` conversion that may
itself raise). -/
inductive PyObj where
  | pnone
  | pstr (s : Str)
  | other (truthy : Bool) (toStr : Except Unit Str)

/-- Exceptions of the embedded code. -/
inductive PErr where
  | exc (msg : Str)
  | keyError (k : Str)
  | typeError
  | attrError
  | jsonDecodeError

/-- Line selection of the markdown-removal block of `_clean_json_response`:
`'\n'.join(lines[1:-1])` when more than two lines, `lines[1]` when exactly
two, otherwise the input unchanged. -/
def clean_lines (r : Str) : Str :=
  let lines := splitNL r
  if 2 < lines.length then joinNL (lines.drop 1).dropLast
  else if 1 < lines.length then lines.getD 1 []
  else r

/-- Language-tag removal of `_clean_json_response`: drop four characters when
the stripped text starts with `json`. -/
def clean_tag (r1 : Str) : Str :=
  if (str "json").isPrefixOf (pyStrip r1) then (pyStrip r1).drop 4 else r1

/-- The core of `_clean_json_response` on an actual string (GARANTIA 3-5 of the
source: strip, remove a leading triple-backtick block, final emptiness check). -/
def clean_core (s : Str) : Str :=
  let r := pyStrip s
  let r :=
    if (str "\x60\x60\x60").isPrefixOf r then pyStrip (clean_tag (clean_lines r))
    else r
  if r.isEmpty then [] else r

/-- `_clean_json_response`.  Every internal hazard of the source is guarded by
a `try/except` returning `""`; an unhandled exception would surface as
`.error`. -/
def clean_json_response (response : PyObj) : Except PErr Str :=
  match response with
  | .pnone => .ok []
  | .pstr s => if s.isEmpty then .ok [] else .ok (clean_core s)
  | .other truthy toStr =>
    if !truthy then .ok []
    else
      match toStr with
      | .ok s => .ok (clean_core s)
      | .error _ => .ok []

/-- Association lookup for JSON objects (Python dict indexing; the payloads
have no duplicate keys). -/
def jlookup : List (Str × Json) → Str → Option Json
  | [], _ => none
  | (k, v) :: t, key => if k = key then some v else jlookup t key

/-- Python `d[k]`: `KeyError` on a missing key, `TypeError` when the value is
not a map. -/
def getItemE (j : Json) (k : Str) : Except PErr Json :=
  match j with
  | .obj kvs =>
    match jlookup kvs k with
    | some v => .ok v
    | none => .error (.keyError k)
  | _ => .error .typeError

/-- Python `d.get(k, default)`: `AttributeError` when the value is not a map. -/
def dictGet (j : Json) (k : Str) (d : Json) : Except PErr Json :=
  match j with
  | .obj kvs => .ok ((jlookup kvs k).getD d)
  | _ => .error .attrError

/-- Python `repr` of a parsed-JSON value (strings single-quoted, `True`,
`None`, ...); internal escaping is not modelled (no claim needs it). -/
def pyReprR (fuel : Nat) (j : Json) : Str :=
  match fuel with
  | 0 => []
  | .succ f =>
    match j with
    | .str s => apo :: s ++ [apo]
    | .b true => str "True"
    | .b false => str "False"
    | .null => str "None"
    | .num n => (Int.repr n).data
    | .arr xs => '[' :: joinCS (xs.map (pyReprR f)) ++ [']']
    | .obj kvs =>
      '{' :: joinCS (kvs.map (fun kv => apo :: kv.1 ++ apo :: ':' :: ' ' :: pyReprR f kv.2)) ++ ['}']

/-- Python `str()` of a parsed-JSON value as used in f-string interpolation. -/
def pyStrOfJson : Json → Str
  | .str s => s
  | j => pyReprR 100 j

def asStrE : Json → Except PErr Str
  | .str s => .ok s
  | _ => .error .typeError

/-- Left-to-right conversion of the elements to strings (the join raises
`TypeError` at the first non-string element). -/
def mapStrList : List Json → Except PErr (List Str)
  | [] => .ok []
  | x :: xs => do
    let s ← asStrE x
    let r ← mapStrList xs
    pure (s :: r)

/-- Python comma-space join of a value from parsed JSON: `TypeError` unless
it is a list of strings. -/
def joinCommaE (j : Json) : Except PErr Str :=
  match j with
  | .arr xs => (mapStrList xs).map joinComma
  | _ => .error .typeError

/-- Behavior of one call of the generation capability (`api.generate`). -/
inductive GenBehavior where
  | raises
  | returns (o : PyObj)

/-- `_generate_with_ai`: an exception from the capability is caught and turned
into `""`. -/
def generate_with_ai : GenBehavior → PyObj
  | .raises => .pstr []
  | .returns o => o


/-- The keyword dispatch of `_generate_fallback_response`: the first matching
branch of the `if`/`elif` chain selects the payload. -/
def generate_fallback_payload (prompt : Str) : Json :=
  if infixOf (str "FASE 1") prompt || infixOf (str "ARQUITETURA DO EVENTO") prompt then
    payloadEvento
  else if infixOf (str "CPL1") prompt || infixOf (str "OPORTUNIDADE PARALISANTE") prompt then
    payloadCpl1
  else if infixOf (str "CPL2") prompt || infixOf (str "TRANSFORMAÇÃO IMPOSSÍVEL") prompt then
    payloadCpl2
  else if infixOf (str "CPL3") prompt || infixOf (str "CAMINHO REVOLUCIONÁRIO") prompt then
    payloadCpl3
  else if infixOf (str "CPL4") prompt || infixOf (str "DECISÃO INEVITÁVEL") prompt then
    payloadCpl4
  else
    payloadDefault

/-- `_generate_fallback_response`.  The surrounding `try/except` of the source
only guards `json.dumps` of the literal dicts above, which cannot raise, so
the literal error-JSON branch is unreachable. -/
def generate_fallback_response (prompt : Str) : Str :=
  dumps (generate_fallback_payload prompt)

structure ContextoEstrategico where
  tema : Str
  segmento : Str
  publico_alvo : Str
  termos_chave : List Str
  frases_busca : List Str
  objecoes : List Str
  tendencias : List Str
  casos_sucesso : List Str

/-- Fields hold the (duck-typed) values taken from the parsed JSON. -/
structure EventoMagnetico where
  nome : Json
  promessa_central : Json
  arquitetura_cpls : Json
  mapeamento_psicologico : Json
  justificativa : Json

structure CPLDevastador where
  numero : Nat
  titulo : Json
  objetivo : Json
  conteudo_principal : Json
  loops_abertos : Json
  quebras_padrao : Json
  provas_sociais : Json
  elementos_cinematograficos : Json
  gatilhos_psicologicos : Json
  call_to_action : Json

/-- `definir_contexto_busca`: enrichment result when the collaborator
succeeds, otherwise the deterministic local fallback context. -/
def definir_contexto_busca (enrich : Option ContextoEstrategico)
    (tema segmento publico_alvo : Str) : ContextoEstrategico :=
  match enrich with
  | some c => c
  | none =>
    ⟨tema, segmento, publico_alvo,
     [pyLower tema, pyLower segmento, str "estratégia", str "resultado",
      str "solução", str "método", str "sistema", str "processo",
      str "técnica", str "abordagem"],
     [str "como resolver " ++ pyLower tema,
      str "melhor " ++ pyLower tema ++ str " para " ++ pyLower publico_alvo,
      pyLower tema ++ str " que funciona",
      str "estratégia de " ++ pyLower tema,
      str "resultado com " ++ pyLower tema],
     [str "É muito caro", str "Não tenho tempo", str "Não vai funcionar para mim"],
     [str "Crescimento do mercado de " ++ pyLower tema,
      str "Digitalização em " ++ pyLower segmento],
     [str "Cliente aumentou resultados em 200% com " ++ pyLower tema,
      str "Empresa transformou " ++ pyLower segmento ++ str " usando nova estratégia",
      publico_alvo ++ str " alcançou objetivo em 90 dias"]⟩

def prompt_fase1 (c : ContextoEstrategico) : Str :=
  tpl_fase1_0 ++ c.tema ++ tpl_fase1_1 ++ c.segmento ++ tpl_fase1_2 ++ c.publico_alvo
    ++ tpl_fase1_3 ++ joinComma c.termos_chave ++ tpl_fase1_4 ++ joinComma c.objecoes
    ++ tpl_fase1_5 ++ joinComma c.tendencias ++ tpl_fase1_6 ++ joinComma c.casos_sucesso
    ++ tpl_fase1_7

def prompt_fase2 (e : EventoMagnetico) : Except PErr Str := do
  let obj1 ← dictGet e.arquitetura_cpls (str "cpl1") (Json.str [])
  pure (tpl_fase2_0 ++ pyStrOfJson e.nome ++ tpl_fase2_1 ++ pyStrOfJson e.promessa_central
    ++ tpl_fase2_2 ++ pyStrOfJson obj1 ++ tpl_fase2_3)

def prompt_fase3 (cpl1 : CPLDevastador) : Except PErr Str := do
  let ls ← joinCommaE cpl1.loops_abertos
  pure (tpl_fase3_0 ++ ls ++ tpl_fase3_1)

/-- The phase-4 template interpolates nothing from `cpl2`. -/
def prompt_fase4 (_cpl2 : CPLDevastador) : Str := tpl_fase4_0

/-- The phase-5 template interpolates nothing from `cpl3`. -/
def prompt_fase5 (_cpl3 : CPLDevastador) : Str := tpl_fase5_0

def msgApiVazia : Str := str "API retornou resposta vazia"
def msgApiVaziaLimpeza : Str := str "API retornou resposta vazia após limpeza"
def msgRespostaInvalida : Str := str "Resposta inválida da API"
def msgSearchObrigatorio : Str :=
  str "Search engine é obrigatório - não há dados simulados permitidos"
def msgDadosInsuficientes : Str := str "Dados insuficientes coletados"

def jsonLoadsExc (s : Str) (e : PErr) : Except PErr Json :=
  match jsonLoads s with
  | some v => .ok v
  | none => .error e

/-- The `EventoMagnetico(...)` construction (identical on the try and the
fallback path of `_fase_1_arquitetura_evento`). -/
def map_evento (d : Json) : Except PErr EventoMagnetico := do
  let nome ← getItemE d (str "nome_evento")
  let promessa ← getItemE d (str "promessa_central")
  let arq ← getItemE d (str "arquitetura_cpls")
  let mape ← getItemE d (str "mapeamento_psicologico")
  let just ← getItemE d (str "justificativa")
  pure ⟨nome, promessa, arq, mape, just⟩

/-- The `CPLDevastador(...)` construction on the try path of `_fase_2`. -/
def map_cpl1_try (d : Json) : Except PErr CPLDevastador := do
  let titulo ← getItemE d (str "titulo")
  let objetivo ← getItemE d (str "objetivo")
  let conteudo ← getItemE d (str "conteudo_principal")
  let loops ← getItemE d (str "loops_abertos")
  let quebras ← getItemE d (str "quebras_padrao")
  let provas ← dictGet d (str "provas_sociais") (Json.arr [])
  let elementos ← getItemE d (str "elementos_cinematograficos")
  let gatilhos ← getItemE d (str "gatilhos_psicologicos")
  let cta ← getItemE d (str "call_to_action")
  pure ⟨1, titulo, objetivo, conteudo, loops, quebras, provas, elementos, gatilhos, cta⟩

/-- The `CPLDevastador(...)` construction on the exception path of `_fase_2`
(every field subscripted directly). -/
def map_cpl1_exc (d : Json) : Except PErr CPLDevastador := do
  let titulo ← getItemE d (str "titulo")
  let objetivo ← getItemE d (str "objetivo")
  let conteudo ← getItemE d (str "conteudo_principal")
  let loops ← getItemE d (str "loops_abertos")
  let quebras ← getItemE d (str "quebras_padrao")
  let provas ← getItemE d (str "provas_sociais")
  let elementos ← getItemE d (str "elementos_cinematograficos")
  let gatilhos ← getItemE d (str "gatilhos_psicologicos")
  let cta ← getItemE d (str "call_to_action")
  pure ⟨1, titulo, objetivo, conteudo, loops, quebras, provas, elementos, gatilhos, cta⟩

/-- Try-path mapping of `_fase_3` (CPL2). -/
def map_cpl2_try (d : Json) : Except PErr CPLDevastador := do
  let titulo ← getItemE d (str "titulo")
  let objetivo ← getItemE d (str "objetivo")
  let conteudo ← getItemE d (str "conteudo_principal")
  let loops ← dictGet d (str "loops_mantidos") (Json.arr [])
  let quebras ← dictGet d (str "quebras_padrao") (Json.arr [])
  let provas ← dictGet d (str "casos_transformacao") (Json.arr [])
  let elementos ← getItemE d (str "elementos_cinematograficos")
  let gatilhos ← getItemE d (str "gatilhos_psicologicos")
  let cta ← getItemE d (str "call_to_action")
  pure ⟨2, titulo, objetivo, conteudo, loops, quebras, provas, elementos, gatilhos, cta⟩

/-- Exception-path mapping of `_fase_3` (CPL2). -/
def map_cpl2_exc (d : Json) : Except PErr CPLDevastador := do
  let titulo ← getItemE d (str "titulo")
  let objetivo ← getItemE d (str "objetivo")
  let conteudo ← getItemE d (str "conteudo_principal")
  let loops ← dictGet d (str "loops_abertos") (Json.arr [])
  let quebras ← dictGet d (str "quebras_padrao") (Json.arr [])
  let provas ← dictGet d (str "provas_sociais") (Json.arr [])
  let elementos ← getItemE d (str "elementos_cinematograficos")
  let gatilhos ← getItemE d (str "gatilhos_psicologicos")
  let cta ← getItemE d (str "call_to_action")
  pure ⟨2, titulo, objetivo, conteudo, loops, quebras, provas, elementos, gatilhos, cta⟩

/-- Try-path mapping of `_fase_4` (CPL3). -/
def map_cpl3_try (d : Json) : Except PErr CPLDevastador := do
  let titulo ← getItemE d (str "titulo")
  let objetivo ← getItemE d (str "objetivo")
  let conteudo ← dictGet d (str "nome_metodo") (Json.str [])
  let quebras ← dictGet d (str "estrutura_passos") (Json.arr [])
  let provas ← dictGet d (str "faq_estrategico") (Json.arr [])
  let elem1 ← dictGet d (str "justificativa_escassez") (Json.str [])
  let gat1 ← dictGet d (str "preparacao_decisao") (Json.str [])
  let cta ← getItemE d (str "call_to_action")
  pure ⟨3, titulo, objetivo, conteudo, Json.arr [], quebras, provas,
    Json.arr [elem1], Json.arr [gat1], cta⟩

/-- Exception-path mapping of `_fase_4` (CPL3): `elementos_cinematograficos`
and `gatilhos_psicologicos` are subscripted directly. -/
def map_cpl3_exc (d : Json) : Except PErr CPLDevastador := do
  let titulo ← getItemE d (str "titulo")
  let objetivo ← getItemE d (str "objetivo")
  let conteudo ← dictGet d (str "conteudo_principal") (Json.str [])
  let quebras ← dictGet d (str "quebras_padrao") (Json.arr [])
  let provas ← dictGet d (str "provas_sociais") (Json.arr [])
  let elementos ← getItemE d (str "elementos_cinematograficos")
  let gatilhos ← getItemE d (str "gatilhos_psicologicos")
  let cta ← getItemE d (str "call_to_action")
  pure ⟨3, titulo, objetivo, conteudo, Json.arr [], quebras, provas, elementos, gatilhos, cta⟩

/-- Try-path mapping of `_fase_5` (CPL4). -/
def map_cpl4_try (d : Json) : Except PErr CPLDevastador := do
  let titulo ← getItemE d (str "titulo")
  let objetivo ← getItemE d (str "objetivo")
  let conteudo ← dictGet d (str "fechamento") (Json.str [])
  let quebras ← dictGet d (str "stack_valor") (Json.arr [])
  let provas ← dictGet d (str "garantias") (Json.arr [])
  let elem1 ← dictGet d (str "urgencia_final") (Json.str [])
  let prec ← dictGet d (str "precificacao") (Json.obj [])
  let cta ← getItemE d (str "call_to_action")
  pure ⟨4, titulo, objetivo, conteudo, Json.arr [], quebras, provas,
    Json.arr [elem1], Json.arr [Json.str (pyStrOfJson prec)], cta⟩

/-- Exception-path mapping of `_fase_5` (CPL4): `elementos_cinematograficos`
and `gatilhos_psicologicos` are subscripted directly. -/
def map_cpl4_exc (d : Json) : Except PErr CPLDevastador := do
  let titulo ← getItemE d (str "titulo")
  let objetivo ← getItemE d (str "objetivo")
  let conteudo ← dictGet d (str "conteudo_principal") (Json.str [])
  let quebras ← dictGet d (str "quebras_padrao") (Json.arr [])
  let provas ← dictGet d (str "provas_sociais") (Json.arr [])
  let elementos ← getItemE d (str "elementos_cinematograficos")
  let gatilhos ← getItemE d (str "gatilhos_psicologicos")
  let cta ← getItemE d (str "call_to_action")
  pure ⟨4, titulo, objetivo, conteudo, Json.arr [], quebras, provas, elementos, gatilhos, cta⟩

/-- The try block of `_fase_1_arquitetura_evento`: validity check, strip,
clean, parse, map, producing the entity and the parsed dict that is saved. -/
def fase_1_try (g : GenBehavior) : Except PErr (EventoMagnetico × Json) := do
  let response := generate_with_ai g
  match response with
  | .pstr s =>
    if s.isEmpty then .error (.exc msgApiVazia)
    else do
      let cleaned ← clean_json_response (.pstr (pyStrip s))
      if cleaned.isEmpty then .error (.exc msgApiVaziaLimpeza)
      else do
        let d ← jsonLoadsExc cleaned (.exc msgRespostaInvalida)
        let ev ← map_evento d
        pure (ev, d)
  | _ => .error (.exc msgApiVazia)

/-- `_fase_1_arquitetura_evento`: any exception of the try block switches to
the fallback path (whose own failures propagate).  The second component is
the dict passed to `_salvar_fase` (none: the exception path saves nothing). -/
def fase_1_arquitetura_evento (g : GenBehavior) (prompt : Str) :
    Except PErr (EventoMagnetico × Option Json) :=
  match fase_1_try g with
  | .ok (ev, d) => .ok (ev, some d)
  | .error _ =>
    match jsonLoadsExc (generate_fallback_response prompt) .jsonDecodeError with
    | .error e => .error e
    | .ok d =>
      match map_evento d with
      | .ok ev => .ok (ev, none)
      | .error e => .error e

/-- The shared try-block shape of `_fase_2` .. `_fase_5`: clean the response,
regenerate via the fallback when the cleaned text is empty, parse, map. -/
def fase_try (g : GenBehavior) (prompt : Str)
    (mTry : Json → Except PErr CPLDevastador) : Except PErr (CPLDevastador × Json) := do
  let response := generate_with_ai g
  let c0 ← clean_json_response response
  let cleaned ← (if c0.isEmpty then
    clean_json_response (.pstr (generate_fallback_response prompt)) else pure c0)
  let d ← jsonLoadsExc cleaned (.exc msgRespostaInvalida)
  let c ← mTry d
  pure (c, d)

/-- The shared `try`/`except` shape of `_fase_2` .. `_fase_5`. -/
def fase_generic (g : GenBehavior) (prompt : Str)
    (mTry mExc : Json → Except PErr CPLDevastador) :
    Except PErr (CPLDevastador × Option Json) :=
  match fase_try g prompt mTry with
  | .ok (c, d) => .ok (c, some d)
  | .error _ =>
    match jsonLoadsExc (generate_fallback_response prompt) .jsonDecodeError with
    | .error e => .error e
    | .ok d =>
      match mExc d with
      | .ok c => .ok (c, none)
      | .error e => .error e

def fase_2_cpl1_oportunidade (g : GenBehavior) (evento : EventoMagnetico) :
    Except PErr (CPLDevastador × Option Json) := do
  let prompt ← prompt_fase2 evento
  fase_generic g prompt map_cpl1_try map_cpl1_exc

def fase_3_cpl2_transformacao (g : GenBehavior) (cpl1 : CPLDevastador) :
    Except PErr (CPLDevastador × Option Json) := do
  let prompt ← prompt_fase3 cpl1
  fase_generic g prompt map_cpl2_try map_cpl2_exc

def fase_4_cpl3_caminho (g : GenBehavior) (cpl2 : CPLDevastador) :
    Except PErr (CPLDevastador × Option Json) :=
  fase_generic g (prompt_fase4 cpl2) map_cpl3_try map_cpl3_exc

def fase_5_cpl4_decisao (g : GenBehavior) (cpl3 : CPLDevastador) :
    Except PErr (CPLDevastador × Option Json) :=
  fase_generic g (prompt_fase5 cpl3) map_cpl4_try map_cpl4_exc

/-! ### Persistence (`_salvar_*`, `_validar_dados_coletados`) -/

/-- Records written under the session by `_salvar_fase`,
`_salvar_resultado_final` and `_salvar_cpl_completo_para_relatorios`. -/
inductive Rec where
  | faseRec (n : Nat) (dados : Json)
  | resultadoFinal
  | cplCompleto

/-- `_salvar_fase`: the write is inside `try/except Exception` — a failing
write leaves the store unchanged and raises nothing. -/
def salvar_fase (storeOk : Bool) (n : Nat) (dados : Json) (recs : List Rec) : List Rec :=
  if storeOk then recs ++ [.faseRec n dados] else recs

def push_fase (storeOk : Bool) (n : Nat) (d : Option Json) (recs : List Rec) : List Rec :=
  match d with
  | some dados => salvar_fase storeOk n dados recs
  | none => recs

/-- `_salvar_resultado_final`: write errors are likewise swallowed. -/
def salvar_resultado_final (storeOk : Bool) (recs : List Rec) : List Rec :=
  if storeOk then recs ++ [.resultadoFinal] else recs

/-- `_salvar_cpl_completo_para_relatorios`: write errors likewise swallowed. -/
def salvar_cpl_completo (storeOk : Bool) (recs : List Rec) : List Rec :=
  if storeOk then recs ++ [.cplCompleto] else recs

/-- Content of `contexto/termos_chave.md` as written by
`_salvar_dados_contextuais` (empty list replaced by the hard-coded default). -/
def termos_chave_file (c : ContextoEstrategico) (sid : Str) : Str :=
  let termos := if c.termos_chave.isEmpty
    then [str "marketing digital", str "conversão", str "vendas online"]
    else c.termos_chave
  str "# Termos-chave\n\n" ++ joinNL (termos.map (fun t => str "- " ++ t))
    ++ str "\n\n## Contexto\n- Sessão: " ++ sid ++ str "\n- Total: " ++ natStr termos.length

/-- Content of `objecoes/objecoes_principais.md`. -/
def objecoes_file (c : ContextoEstrategico) : Str :=
  let objecoes := if c.objecoes.isEmpty
    then [str "Preço alto", str "Sem tempo", str "Já tentei antes"]
    else c.objecoes
  str "# Objeções\n\n" ++ joinNL (objecoes.map (fun o => str "- " ++ o))
    ++ str "\n\n## Total: " ++ natStr objecoes.length

/-- Content of `casos_sucesso/casos_verificados.md`. -/
def casos_file (c : ContextoEstrategico) : Str :=
  let casos := if c.casos_sucesso.isEmpty
    then [str "Aumento 300% vendas", str "ROI 500%", str "Crescimento 200%"]
    else c.casos_sucesso
  str "# Casos de Sucesso\n\n" ++ joinNL (casos.map (fun x => str "- " ++ x))
    ++ str "\n\n## Total: " ++ natStr casos.length

/-- Content of `tendencias/tendencias_atuais.md`. -/
def tendencias_file (c : ContextoEstrategico) : Str :=
  let tend := if c.tendencias.isEmpty
    then [str "IA em marketing", str "Personalização", str "Automação"]
    else c.tendencias
  str "# Tendências\n\n" ++ joinNL (tend.map (fun x => str "- " ++ x))
    ++ str "\n\n## Total: " ++ natStr tend.length

/-- Sizes (in bytes, or `none` when absent) of the four contextual artifact
files checked by `_validar_dados_coletados`. -/
structure CtxFS where
  termos : Option Nat
  objecoes : Option Nat
  casos : Option Nat
  tendencias : Option Nat

/-- `_salvar_dados_contextuais`: on success the four files hold the rendered
contents; the whole body is inside `try/except` which swallows write errors,
leaving whatever partial state (`fsOnFail`) on the filesystem. -/
def salvar_dados_contextuais (ctxWriteOk : Bool) (fsOnFail : CtxFS)
    (c : ContextoEstrategico) (sid : Str) : CtxFS :=
  if ctxWriteOk then
    ⟨some (byteLen (termos_chave_file c sid)), some (byteLen (objecoes_file c)),
     some (byteLen (casos_file c)), some (byteLen (tendencias_file c))⟩
  else fsOnFail

/-- One file passes the check when it exists with size strictly above 20. -/
def valid_file : Option Nat → Bool
  | some sz => decide (20 < sz)
  | none => false

/-- `_validar_dados_coletados`: count the valid files among the four critical
ones and require at least 2. -/
def validar_dados_coletados (fs : CtxFS) : Bool :=
  let n := [fs.termos, fs.objecoes, fs.casos, fs.tendencias].foldl
    (fun acc f => if valid_file f then acc + 1 else acc) 0
  decide (2 ≤ n)

/-! ### The pipeline controller and the job-runner thread -/

/-- The collaborators and failure switches of one pipeline run. -/
structure World where
  enrich : Option ContextoEstrategico
  search : Option Json
  ctxWriteOk : Bool
  fsOnFail : CtxFS
  gen1 : GenBehavior
  gen2 : GenBehavior
  gen3 : GenBehavior
  gen4 : GenBehavior
  gen5 : GenBehavior

/-- The terminal aggregate compiled by `executar_protocolo_completo`. -/
structure Resultado where
  contexto : ContextoEstrategico
  evento : EventoMagnetico
  cpl1 : CPLDevastador
  cpl2 : CPLDevastador
  cpl3 : CPLDevastador
  cpl4 : CPLDevastador
  dados_busca : Json

/-- `executar_protocolo_completo`: context prep, mandatory search, contextual
persistence, sufficiency check, the five phases, final persistence.  Returns
the outcome together with the records durably written. -/
def executar_protocolo_completo (w : World) (storeOk : Bool)
    (tema segmento publico_alvo sid : Str) : Except PErr Resultado × List Rec :=
  let contexto := definir_contexto_busca w.enrich tema segmento publico_alvo
  match w.search with
  | none => (.error (.exc msgSearchObrigatorio), [])
  | some search_results =>
    let fs := salvar_dados_contextuais w.ctxWriteOk w.fsOnFail contexto sid
    if !validar_dados_coletados fs then (.error (.exc msgDadosInsuficientes), [])
    else
      match fase_1_arquitetura_evento w.gen1 (prompt_fase1 contexto) with
      | .error e => (.error e, [])
      | .ok (evento, d1) =>
        let recs := push_fase storeOk 1 d1 []
        match fase_2_cpl1_oportunidade w.gen2 evento with
        | .error e => (.error e, recs)
        | .ok (cpl1, d2) =>
          let recs := push_fase storeOk 2 d2 recs
          match fase_3_cpl2_transformacao w.gen3 cpl1 with
          | .error e => (.error e, recs)
          | .ok (cpl2, d3) =>
            let recs := push_fase storeOk 3 d3 recs
            match fase_4_cpl3_caminho w.gen4 cpl2 with
            | .error e => (.error e, recs)
            | .ok (cpl3, d4) =>
              let recs := push_fase storeOk 4 d4 recs
              match fase_5_cpl4_decisao w.gen5 cpl3 with
              | .error e => (.error e, recs)
              | .ok (cpl4, d5) =>
                let recs := push_fase storeOk 5 d5 recs
                let resultado : Resultado :=
                  ⟨contexto, evento, cpl1, cpl2, cpl3, cpl4, search_results⟩
                (.ok resultado, salvar_cpl_completo storeOk (salvar_resultado_final storeOk recs))

/-- A record written by `salvar_etapa` in the route-level thread. -/
structure EtapaRec where
  nome : Str
  error : Str

/-- Python `str(e)` for the modelled exceptions. -/
def str_of_exc : PErr → Str
  | .exc m => m
  | .keyError k => apo :: k ++ [apo]
  | .typeError => str "TypeError"
  | .attrError => str "AttributeError"
  | .jsonDecodeError => str "JSONDecodeError"

/-- `execute_cpl_devastador_thread` of `src/routes/enhanced_workflow.py`:
services check, run the protocol, persist exactly one completion or error
marker (the inner `except` never re-raises, so the outer handler is dead). -/
def execute_cpl_devastador_thread (servicesOk : Bool) (w : World) (storeOk : Bool)
    (tema segmento publico_alvo sid : Str) : List EtapaRec :=
  if !servicesOk then
    [⟨str "cpl_devastador_erro", str "Protocolo CPL Devastador não disponível"⟩]
  else
    match (executar_protocolo_completo w storeOk tema segmento publico_alvo sid).1 with
    | .ok _ => [⟨str "cpl_devastador_concluido", []⟩]
    | .error e => [⟨str "cpl_devastador_erro", str_of_exc e⟩]

/-! ### Concrete scenario: the end-to-end input of the spec, enrichment
failing (local fallback context), search present, every generation call
returning unusable or empty text. -/

def temaEx : Str := str "Marketing Digital"
def segmentoEx : Str := str "E-commerce"
def publicoEx : Str := str "Pequenos empresários"
def sidEx : Str := str "sessao_teste"

def fsAbsent : CtxFS := ⟨none, none, none, none⟩

/-- Every generation call returns the empty string. -/
def worldEmpty : World :=
  ⟨none, some (Json.obj []), true, fsAbsent,
   .returns (.pstr []), .returns (.pstr []), .returns (.pstr []),
   .returns (.pstr []), .returns (.pstr [])⟩

/-- Every generation call returns non-empty unusable (non-JSON) text. -/
def worldUnusable : World :=
  ⟨none, some (Json.obj []), true, fsAbsent,
   .returns (.pstr (str "ERRO: sem resposta")), .returns (.pstr (str "ERRO: sem resposta")),
   .returns (.pstr (str "ERRO: sem resposta")), .returns (.pstr (str "ERRO: sem resposta")),
   .returns (.pstr (str "ERRO: sem resposta"))⟩

/-- Every generation call returns schema-valid JSON (the phase payloads). -/
def worldGood : World :=
  ⟨none, some (Json.obj []), true, fsAbsent,
   .returns (.pstr (dumps payloadEvento)), .returns (.pstr (dumps payloadCpl1)),
   .returns (.pstr (dumps payloadCpl2)), .returns (.pstr (dumps payloadCpl3)),
   .returns (.pstr (dumps payloadCpl4))⟩

/-- Search collaborator absent. -/
def worldNoSearch : World :=
  ⟨none, none, true, fsAbsent,
   .returns (.pstr []), .returns (.pstr []), .returns (.pstr []),
   .returns (.pstr []), .returns (.pstr [])⟩

def ctxEx : ContextoEstrategico := definir_contexto_busca none temaEx segmentoEx publicoEx

def eventoDummy : EventoMagnetico := ⟨.null, .null, .null, .null, .null⟩

def cplDummy : CPLDevastador :=
  ⟨0, .null, .null, .null, .null, .null, .null, .null, .null, .null⟩

/-- The MagneticEvent produced from the phase-1 fallback payload. -/
def eventoFb : EventoMagnetico :=
  match map_evento payloadEvento with
  | .ok e => e
  | .error _ => eventoDummy

/-- The ContentUnit 1 produced from the unit-1 fallback payload (try mapping). -/
def cpl1Fb : CPLDevastador :=
  match map_cpl1_try payloadCpl1 with
  | .ok c => c
  | .error _ => cplDummy

/-- The prompt actually built for unit 1 in the all-fallback scenario. -/
def scenarioPrompt2 : Str :=
  match prompt_fase2 eventoFb with
  | .ok p => p
  | .error _ => []

/-- The prompt actually built for unit 2 in the all-fallback scenario. -/
def scenarioPrompt3 : Str :=
  match prompt_fase3 cpl1Fb with
  | .ok p => p
  | .error _ => []


/-! ### The JSON repair pass (`_repair_common_json_issues` of
`src/services/enhanced_synthesis_engine.py`).  Each `re.sub` is embedded as a
left-to-right, leftmost-match, non-overlapping scanner; all functions are
fuelled by the input length (each step consumes at least one character). -/

/-- Word characters of the regex class `[a-zA-Z0-9_]`. -/
def isWordChar (c : Char) : Bool := c.isAlpha || c.isDigit || c = '_'

/-- Suffix after the first newline, if any. -/
def dropToNL : Str → Option Str
  | [] => none
  | c :: r => if c = '\n' then some r else dropToNL r

/-- Suffix after the first `*/`, if any. -/
def dropToCloseBC : Str → Option Str
  | [] => none
  | '*' :: '/' :: r => some r
  | _ :: r => dropToCloseBC r

/-- The first substitution: replace a line comment, running to the first
newline, by a newline (with no newline after the slashes the pattern cannot
match there or later). -/
def stripLineCommentsR : Nat → Str → Str
  | 0, s => s
  | .succ f, s =>
    match s with
    | '/' :: '/' :: rest =>
      match dropToNL rest with
      | some after => '\n' :: stripLineCommentsR f after
      | none => s
    | c :: rest => c :: stripLineCommentsR f rest
    | [] => []

def stripLineComments (s : Str) : Str := stripLineCommentsR s.length s

/-- The second substitution: remove block comments (lazy, DOTALL). -/
def stripBlockCommentsR : Nat → Str → Str
  | 0, s => s
  | .succ f, s =>
    match s with
    | '/' :: '*' :: rest =>
      match dropToCloseBC rest with
      | some after => stripBlockCommentsR f after
      | none => s
    | c :: rest => c :: stripBlockCommentsR f rest
    | [] => []

def stripBlockComments (s : Str) : Str := stripBlockCommentsR s.length s

/-- Split at the next apostrophe: the apostrophe-free prefix and the suffix
after it. -/
def scanToApo : Str → Option (Str × Str)
  | [] => none
  | c :: r =>
    if c = apo then some ([], r)
    else
      match scanToApo r with
      | none => none
      | some (mid, after) => some (c :: mid, after)

/-- The third substitution: rewrite single-quoted keys (quote, quote-free
body, quote, colon) to double-quoted. -/
def fixSqKeysR : Nat → Str → Str
  | 0, s => s
  | .succ f, s =>
    match s with
    | [] => []
    | c :: rest =>
      if c = apo then
        match scanToApo rest with
        | some (mid, ':' :: r2) => '"' :: mid ++ '"' :: ':' :: fixSqKeysR f r2
        | _ => c :: fixSqKeysR f rest
      else c :: fixSqKeysR f rest

def fixSqKeys (s : Str) : Str := fixSqKeysR s.length s

/-- The fourth substitution: rewrite single-quoted values directly after a
colon to double-quoted (whitespace normalized to one space). -/
def fixSqValsR : Nat → Str → Str
  | 0, s => s
  | .succ f, s =>
    match s with
    | [] => []
    | c :: rest =>
      if c = ':' then
        let r1 := rest.dropWhile isPySpace
        match r1 with
        | q :: r2 =>
          if q = apo then
            match scanToApo r2 with
            | some (mid, after) => ':' :: ' ' :: '"' :: mid ++ '"' :: fixSqValsR f after
            | none => c :: fixSqValsR f rest
          else c :: fixSqValsR f rest
        | [] => c :: fixSqValsR f rest
      else c :: fixSqValsR f rest

def fixSqVals (s : Str) : Str := fixSqValsR s.length s

/-- The fifth substitution: double-quote bare identifier keys occurring
after an opening brace or a comma. -/
def quoteBareKeysR : Nat → Str → Str
  | 0, s => s
  | .succ f, s =>
    match s with
    | [] => []
    | c :: rest =>
      if c = '{' || c = ',' then
        let ws := rest.takeWhile isPySpace
        let r1 := rest.dropWhile isPySpace
        match r1 with
        | h :: _ =>
          if h.isAlpha || h = '_' then
            let ident := r1.takeWhile isWordChar
            let r2 := r1.dropWhile isWordChar
            let r3 := r2.dropWhile isPySpace
            match r3 with
            | ':' :: r4 =>
              c :: ws ++ '"' :: ident ++ '"' :: ':' :: quoteBareKeysR f r4
            | _ => c :: quoteBareKeysR f rest
          else c :: quoteBareKeysR f rest
        | [] => c :: quoteBareKeysR f rest
      else c :: quoteBareKeysR f rest

def quoteBareKeys (s : Str) : Str := quoteBareKeysR s.length s

/-- The sixth substitution: remove a comma (and following whitespace)
directly before a closing brace or bracket. -/
def removeTrailingCommasR : Nat → Str → Str
  | 0, s => s
  | .succ f, s =>
    match s with
    | [] => []
    | c :: rest =>
      if c = ',' then
        match rest.dropWhile isPySpace with
        | h :: r2 =>
          if h = '}' || h = ']' then h :: removeTrailingCommasR f r2
          else c :: removeTrailingCommasR f rest
        | [] => c :: removeTrailingCommasR f rest
      else c :: removeTrailingCommasR f rest

def removeTrailingCommas (s : Str) : Str := removeTrailingCommasR s.length s

/-- The three missing-comma insertions: a lead character (closing quote,
brace or bracket), whitespace containing a newline, then an opening quote,
rewritten to lead, comma, newline, quote. -/
def addCommaAfterR (lead : Char) : Nat → Str → Str
  | 0, s => s
  | .succ f, s =>
    match s with
    | [] => []
    | c :: rest =>
      if c = lead then
        let ws := rest.takeWhile isPySpace
        let r1 := rest.dropWhile isPySpace
        match r1 with
        | '"' :: r2 =>
          if ws.contains '\n' then
            lead :: ',' :: '\n' :: '"' :: addCommaAfterR lead f r2
          else c :: addCommaAfterR lead f rest
        | _ => c :: addCommaAfterR lead f rest
      else c :: addCommaAfterR lead f rest

def addCommaAfter (lead : Char) (s : Str) : Str := addCommaAfterR lead s.length s

/-- The boolean/null substitutions: a colon, whitespace, then the Python
literal `True`/`False`/`None` at a word boundary, rewritten to colon-space
and the JSON literal. -/
def fixLiteralAfterColonR (lit rep : Str) : Nat → Str → Str
  | 0, s => s
  | .succ f, s =>
    match s with
    | [] => []
    | c :: rest =>
      if c = ':' then
        let r1 := rest.dropWhile isPySpace
        if lit.isPrefixOf r1 then
          let after := r1.drop lit.length
          let boundary := match after with
            | [] => true
            | a :: _ => !isWordChar a
          if boundary then ':' :: ' ' :: rep ++ fixLiteralAfterColonR lit rep f after
          else c :: fixLiteralAfterColonR lit rep f rest
        else c :: fixLiteralAfterColonR lit rep f rest
      else c :: fixLiteralAfterColonR lit rep f rest

def fixLiteralAfterColon (lit rep : Str) (s : Str) : Str :=
  fixLiteralAfterColonR lit rep s.length s

/-- `_repair_common_json_issues`: the substitutions applied in source order,
then `strip()`.  (The internal `try/except` only guards the `re` calls,
which cannot raise on these patterns.) -/
def repair_common_json_issues (s : Str) : Str :=
  let s := stripLineComments s
  let s := stripBlockComments s
  let s := fixSqKeys s
  let s := fixSqVals s
  let s := quoteBareKeys s
  let s := removeTrailingCommas s
  let s := addCommaAfter '"' s
  let s := addCommaAfter '}' s
  let s := addCommaAfter ']' s
  let s := fixLiteralAfterColon (str "True") (str "true") s
  let s := fixLiteralAfterColon (str "False") (str "false") s
  let s := fixLiteralAfterColon (str "None") (str "null") s
  pyStrip s

/-- Helper to write test strings containing apostrophes (the section sign is
replaced by an apostrophe). -/
def withSq (s : String) : Str := s.data.map (fun c => if c = '§' then apo else c)


/-! ### Scenario units used in the concrete theorems -/

/-- ContentUnit 2 of the all-fallback run (phase 3 falls back to the unit-1
payload, mapped by the try-path mapping). -/
def cpl2Fb : CPLDevastador :=
  match map_cpl2_try payloadCpl1 with
  | .ok c => c
  | .error _ => cplDummy

/-- ContentUnit 3 of the all-fallback run. -/
def cpl3Fb : CPLDevastador :=
  match map_cpl3_try payloadCpl3 with
  | .ok c => c
  | .error _ => cplDummy

/-! ### Helper lemmas: the six fallback payloads serialize to parseable text -/

theorem loads_dumps_evento : jsonLoads (dumps payloadEvento) = some payloadEvento := by rfl

theorem loads_dumps_cpl1 : jsonLoads (dumps payloadCpl1) = some payloadCpl1 := by rfl

theorem loads_dumps_cpl2 : jsonLoads (dumps payloadCpl2) = some payloadCpl2 := by rfl

theorem loads_dumps_cpl3 : jsonLoads (dumps payloadCpl3) = some payloadCpl3 := by rfl

theorem loads_dumps_cpl4 : jsonLoads (dumps payloadCpl4) = some payloadCpl4 := by rfl

theorem loads_dumps_default : jsonLoads (dumps payloadDefault) = some payloadDefault := by rfl

/-- Claim C1: the Resilient Generator layer never raises — `_clean_json_response`
returns a string (`.ok`) for every input (None, empty, non-string, or string),
and `_generate_fallback_response` returns a JSON-parseable string for every
prompt. -/
theorem c1_resilient_layer_never_raises :
    (∀ o : PyObj, ∃ s : Str, clean_json_response o = .ok s) ∧
    (∀ p : Str, ∃ v : Json, jsonLoads (generate_fallback_response p) = some v) := by
  constructor
  · intro o
    cases o with
    | pnone => exact ⟨[], rfl⟩
    | pstr s =>
      cases hs : s.isEmpty
      · exact ⟨clean_core s, by simp [clean_json_response, hs]⟩
      · exact ⟨[], by simp [clean_json_response, hs]⟩
    | other t ts =>
      cases t
      · exact ⟨[], rfl⟩
      · cases ts with
        | ok s => exact ⟨clean_core s, rfl⟩
        | error e => exact ⟨[], rfl⟩
  · intro p
    unfold generate_fallback_response generate_fallback_payload
    repeat' split
    exacts [⟨payloadEvento, loads_dumps_evento⟩, ⟨payloadCpl1, loads_dumps_cpl1⟩,
      ⟨payloadCpl2, loads_dumps_cpl2⟩, ⟨payloadCpl3, loads_dumps_cpl3⟩,
      ⟨payloadCpl4, loads_dumps_cpl4⟩, ⟨payloadDefault, loads_dumps_default⟩]

/-- Claim C2 (failing-input evaluation): when the generation capability
returns non-empty unusable text, phase 4 enters its exception path, the
fallback yields the CPL3 payload, and the exception-path mapping subscripts
the missing key `elementos_cinematograficos` — the resulting `KeyError`
propagates out of `executar_protocolo_completo`, aborting the pipeline. -/
theorem c2_unusable_text_fatal_keyerror :
    (executar_protocolo_completo worldUnusable true temaEx segmentoEx publicoEx sidEx).1
      = .error (.keyError (str "elementos_cinematograficos")) := by rfl

/-- Claim C4 (counterexample): the prompt built for unit 2 contains the
keyword `CPL1` (in its `CONTINUIDADE DO CPL1` header), which the fallback
keyword chain checks before `CPL2`, so it yields the unit-1-shaped
placeholder, not the unit-2-shaped one. -/
theorem c4_counterexample :
    generate_fallback_payload scenarioPrompt3 = payloadCpl1 ∧ payloadCpl1 ≠ payloadCpl2 := by
  refine ⟨by rfl, fun h => ?_⟩
  have h2 : dumps payloadCpl1 = dumps payloadCpl2 := by rw [h]
  exact absurd h2 (by decide)

/-- Claim C4 (amended): of the five phase prompts built in the all-fallback
scenario, the event, unit-1, unit-3 and unit-4 prompts receive their own
phase payloads, while the unit-2 prompt receives the unit-1 payload. -/
theorem c4_amended_fallback_keying :
    generate_fallback_payload (prompt_fase1 ctxEx) = payloadEvento ∧
    generate_fallback_payload scenarioPrompt2 = payloadCpl1 ∧
    generate_fallback_payload scenarioPrompt3 = payloadCpl1 ∧
    generate_fallback_payload (prompt_fase4 cpl2Fb) = payloadCpl3 ∧
    generate_fallback_payload (prompt_fase5 cpl3Fb) = payloadCpl4 :=
  ⟨by rfl, by rfl, by rfl, by rfl, by rfl⟩

/-- Claim C5 (counterexample): a payload whose only defects are single-quoted
keys and single-quoted string literals (inside an array) is not repaired to
parseable output — the value rule only rewrites quotes directly after a
colon. -/
theorem c5_counterexample :
    jsonLoads (repair_common_json_issues (withSq "\x7b§a§: [§b§]\x7d")) = none := by rfl

/-- Claim C5 (amended): the repairs succeed for defects in key position or
directly after a colon — line comments + single-quoted key/value + bare key +
trailing comma + `True`; block comments + `None`/`False`; missing commas
between adjacent lines. -/
theorem c5_amended_repairs :
    repair_common_json_issues (withSq "// obs\n\x7b§a§: §b§, c: True,\x7d")
      = str "\x7b\"a\": \"b\", \"c\": true\x7d" ∧
    jsonLoads (repair_common_json_issues (withSq "// obs\n\x7b§a§: §b§, c: True,\x7d"))
      = some (.obj [(str "a", .str (str "b")), (str "c", .b true)]) ∧
    jsonLoads (repair_common_json_issues (str "/* x */\x7b\"a\": None, \"b\": False\x7d"))
      = some (.obj [(str "a", .null), (str "b", .b false)]) ∧
    jsonLoads (repair_common_json_issues (str "\x7b\"a\": \"x\"\n\"b\": \"y\"\x7d"))
      = some (.obj [(str "a", .str (str "x")), (str "b", .str (str "y"))]) :=
  ⟨by rfl, by rfl, by rfl, by rfl⟩

/-- Claim C6 (counterexample): for the fenced response whose inner text is
`jsonish`, sanitization does not return the stripped inner text — the textual
language-tag removal also fires on inner text that merely begins with `json`. -/
theorem c6_counterexample :
    clean_json_response (.pstr (str "\x60\x60\x60\njsonish\n\x60\x60\x60"))
      = .ok (str "ish") ∧ pyStrip (str "jsonish") ≠ str "ish" :=
  ⟨by rfl, by decide⟩

/-- Claim C9 (counterexample): with every store write failing, the pipeline
still runs to completion (no phase is stopped) and nothing is durably
recorded. -/
theorem c9_counterexample :
    (match (executar_protocolo_completo worldGood false temaEx segmentoEx publicoEx sidEx).1 with
      | .ok _ => true
      | .error _ => false) = true ∧
    (executar_protocolo_completo worldGood false temaEx segmentoEx publicoEx sidEx).2 = [] :=
  ⟨by rfl, by rfl⟩

/-! ### Supporting lemmas on the string primitives -/

theorem splitNL_ne_nil (s : Str) : splitNL s ≠ [] := by
  induction s with
  | nil => simp [splitNL]
  | cons c cs ih =>
    simp only [splitNL]
    split
    · simp
    · split <;> simp

theorem splitNL_append (x y : Str) : splitNL (x ++ '\n' :: y) = splitNL x ++ splitNL y := by
  induction x with
  | nil => simp [splitNL]
  | cons c cs ih =>
    by_cases hc : c = '\n'
    · subst hc
      simp [splitNL, ih]
    · simp only [List.cons_append, splitNL, if_neg hc, List.append_eq]
      rw [ih]
      cases h : splitNL cs with
      | nil => exact absurd h (splitNL_ne_nil cs)
      | cons l ls => simp

theorem splitNL_no_nl {a : Str} (h : '\n' ∉ a) : splitNL a = [a] := by
  induction a with
  | nil => rfl
  | cons c cs ih =>
    simp only [List.mem_cons, not_or] at h
    rw [splitNL, if_neg (fun hh => h.1 hh.symm), ih h.2]

theorem joinNL_splitNL (s : Str) : joinNL (splitNL s) = s := by
  induction s with
  | nil => rfl
  | cons c cs ih =>
    simp only [splitNL]
    split
    · rename_i hc
      cases h : splitNL cs with
      | nil => exact absurd h (splitNL_ne_nil cs)
      | cons l ls =>
        rw [h] at ih
        subst hc
        simp only [joinNL]
        rw [ih]
        rfl
    · rename_i hc
      cases h : splitNL cs with
      | nil => exact absurd h (splitNL_ne_nil cs)
      | cons l ls =>
        rw [h] at ih
        cases ls with
        | nil => simp only [joinNL] at ih ⊢; rw [ih]
        | cons m ms =>
          simp only [joinNL] at ih ⊢
          rw [List.cons_append, ih]

theorem isPrefixOf_append_self (p t : Str) : p.isPrefixOf (p ++ t) = true := by
  induction p with
  | nil => simp [List.isPrefixOf]
  | cons c cs ih => simp [List.isPrefixOf, ih]

theorem infixOf_middle (p a b : Str) : infixOf p (a ++ p ++ b) = true := by
  induction a with
  | nil =>
    rw [List.nil_append]
    cases p with
    | nil => cases b <;> simp [infixOf, List.isPrefixOf]
    | cons c cs =>
      have h := isPrefixOf_append_self (c :: cs) b
      simp only [List.cons_append, infixOf]
      simp only [List.cons_append] at h
      simp [h]
  | cons x xs ih =>
    simp only [List.cons_append, infixOf]
    have ih2 : infixOf p (xs ++ (p ++ b)) = true := by
      rw [← List.append_assoc]
      exact ih
    simp [ih2]

theorem byteLen_append (a b : Str) : byteLen (a ++ b) = byteLen a + byteLen b := by
  simp [byteLen]

theorem ite_isEmpty_self (l : Str) : (if l.isEmpty then ([] : Str) else l) = l := by
  cases l <;> simp

/-! ### Parser head lemma: no JSON document starts with `j` -/

theorem loads_head_j (t : Str) : jsonLoads ('j' :: t) = none := by
  have key : parseRun (t.length + 2) .val ('j' :: t) = none := rfl
  unfold jsonLoads parseValue
  rw [show ('j' :: t).length + 1 = t.length + 2 from rfl, key]

theorem loads_json_prefix (b : Str) (h : (str "json").isPrefixOf b = true) :
    jsonLoads b = none := by
  cases b with
  | nil => exact absurd h (by decide)
  | cons c t =>
    have hb : str "json" = 'j' :: 's' :: 'o' :: 'n' :: [] := by decide
    rw [hb] at h
    simp only [List.isPrefixOf, Bool.and_eq_true, beq_iff_eq] at h
    obtain ⟨hc, -⟩ := h
    rw [← hc]
    exact loads_head_j t

/-! ### Inversion of `Except` binds -/

theorem exbind_ok {α β : Type} {x : Except PErr α} {f : α → Except PErr β} {b : β} :
    (x >>= f) = .ok b ↔ ∃ a, x = .ok a ∧ f a = .ok b := by
  cases x <;> simp [Bind.bind, Except.bind]

/-- Claim C6 (amended): for a response that, after stripping, is a
triple-backtick fenced block (language tag allowed on the first line),
sanitization returns the stripped inner text — except that an inner text
beginning with `json` additionally loses its first four characters; when the
inner text parses as JSON the carve-out cannot fire and the stripped inner
text is returned verbatim. -/
theorem c6_amended_fence_stripping :
    ∀ (s lang inner : Str), '\n' ∉ lang →
    pyStrip s = (str "\x60\x60\x60" ++ lang) ++ '\n' :: (inner ++ '\n' :: str "\x60\x60\x60") →
    clean_json_response (.pstr s)
      = .ok (if (str "json").isPrefixOf (pyStrip inner)
             then pyStrip ((pyStrip inner).drop 4) else pyStrip inner) ∧
    ((∃ v, jsonLoads (pyStrip inner) = some v) →
      clean_json_response (.pstr s) = .ok (pyStrip inner)) := by
  intro s lang inner hlang hs
  have hsne : s.isEmpty = false := by
    cases s with
    | nil =>
      rw [show pyStrip [] = [] from rfl] at hs
      rw [show (str "\x60\x60\x60") = '\x60' :: '\x60' :: '\x60' :: [] from rfl] at hs
      simp at hs
    | cons c t => rfl
  have hclean : clean_json_response (.pstr s) = .ok (clean_core s) := by
    simp [clean_json_response, hsne]
  have hpre : (str "\x60\x60\x60").isPrefixOf
      ((str "\x60\x60\x60" ++ lang) ++ '\n' :: (inner ++ '\n' :: str "\x60\x60\x60")) = true := by
    rw [List.append_assoc]
    exact isPrefixOf_append_self _ _
  have hnl3 : '\n' ∉ str "\x60\x60\x60" ++ lang := by
    intro hmem
    rcases List.mem_append.mp hmem with h | h
    · exact absurd h (by decide)
    · exact hlang h
  have hsplit : splitNL ((str "\x60\x60\x60" ++ lang) ++ '\n' :: (inner ++ '\n' :: str "\x60\x60\x60"))
      = (str "\x60\x60\x60" ++ lang) :: (splitNL inner ++ [str "\x60\x60\x60"]) := by
    rw [splitNL_append, splitNL_append,
      splitNL_no_nl hnl3, splitNL_no_nl (a := str "\x60\x60\x60") (by decide)]
    simp
  have hlines : clean_lines ((str "\x60\x60\x60" ++ lang) ++ '\n' :: (inner ++ '\n' :: str "\x60\x60\x60"))
      = inner := by
    simp only [clean_lines, hsplit]
    have hlen : 2 < ((str "\x60\x60\x60" ++ lang) :: (splitNL inner ++ [str "\x60\x60\x60"])).length := by
      have := List.length_pos.mpr (splitNL_ne_nil inner)
      simp [List.length_append]
      omega
    rw [if_pos hlen]
    rw [show ((str "\x60\x60\x60" ++ lang) :: (splitNL inner ++ [str "\x60\x60\x60"])).drop 1
      = splitNL inner ++ [str "\x60\x60\x60"] from rfl]
    rw [show (splitNL inner ++ [str "\x60\x60\x60"]).dropLast = splitNL inner by simp]
    exact joinNL_splitNL inner
  have hmain : clean_json_response (.pstr s)
      = .ok (if (str "json").isPrefixOf (pyStrip inner)
             then pyStrip ((pyStrip inner).drop 4) else pyStrip inner) := by
    rw [hclean]
    simp only [clean_core]
    rw [hs, if_pos hpre, hlines]
    unfold clean_tag
    split
    · rw [ite_isEmpty_self]
    · rw [ite_isEmpty_self]
  refine ⟨hmain, fun ⟨v, hv⟩ => ?_⟩
  rw [hmain]
  cases hcond : (str "json").isPrefixOf (pyStrip inner) with
  | true =>
    have := loads_json_prefix (pyStrip inner) hcond
    rw [hv] at this
    simp at this
  | false => rw [if_neg (by simp [hcond])]

/-- Claim C6 (witness): a concrete fenced response with a `json` language tag
and valid inner JSON. -/
theorem c6_witness :
    clean_json_response (.pstr (str "  \x60\x60\x60json\n\x7b\"a\": \"b\"\x7d\n\x60\x60\x60  "))
      = .ok (str "\x7b\"a\": \"b\"\x7d") := by
  have := c6_amended_fence_stripping
    (str "  \x60\x60\x60json\n\x7b\"a\": \"b\"\x7d\n\x60\x60\x60  ")
    (str "json") (str "\x7b\"a\": \"b\"\x7d") (by decide) (by decide)
  exact this.2 ⟨.obj [(str "a", .str (str "b"))], by rfl⟩

theorem expure_ok {α : Type} {a b : α} :
    (pure a : Except PErr α) = .ok b ↔ a = b := by
  simp [pure, Except.pure]

/-- Inversion for the shared try-block: the mapped unit comes from applying
the mapper to the parsed dict that is returned alongside it. -/
theorem fase_try_ok {g : GenBehavior} {p : Str} {m : Json → Except PErr CPLDevastador}
    {c : CPLDevastador} {d : Json} (h : fase_try g p m = .ok (c, d)) : m d = .ok c := by
  unfold fase_try at h
  obtain ⟨c0, h0, h⟩ := exbind_ok.mp h
  obtain ⟨cl, h1, h⟩ := exbind_ok.mp h
  obtain ⟨dd, h2, h⟩ := exbind_ok.mp h
  obtain ⟨cc, h3, h⟩ := exbind_ok.mp h
  have h4 := expure_ok.mp h
  injection h4 with hc hd
  subst hc
  subst hd
  exact h3

theorem map_cpl1_try_numero {d : Json} {c : CPLDevastador}
    (h : map_cpl1_try d = .ok c) : c.numero = 1 := by
  unfold map_cpl1_try at h
  simp only [exbind_ok, expure_ok] at h
  obtain ⟨a1, -, a2, -, a3, -, a4, -, a5, -, a6, -, a7, -, a8, -, a9, -, hc⟩ := h
  rw [← hc]

theorem map_cpl1_exc_numero {d : Json} {c : CPLDevastador}
    (h : map_cpl1_exc d = .ok c) : c.numero = 1 := by
  unfold map_cpl1_exc at h
  simp only [exbind_ok, expure_ok] at h
  obtain ⟨a1, -, a2, -, a3, -, a4, -, a5, -, a6, -, a7, -, a8, -, a9, -, hc⟩ := h
  rw [← hc]

theorem map_cpl2_try_numero {d : Json} {c : CPLDevastador}
    (h : map_cpl2_try d = .ok c) : c.numero = 2 := by
  unfold map_cpl2_try at h
  simp only [exbind_ok, expure_ok] at h
  obtain ⟨a1, -, a2, -, a3, -, a4, -, a5, -, a6, -, a7, -, a8, -, a9, -, hc⟩ := h
  rw [← hc]

theorem map_cpl2_exc_numero {d : Json} {c : CPLDevastador}
    (h : map_cpl2_exc d = .ok c) : c.numero = 2 := by
  unfold map_cpl2_exc at h
  simp only [exbind_ok, expure_ok] at h
  obtain ⟨a1, -, a2, -, a3, -, a4, -, a5, -, a6, -, a7, -, a8, -, a9, -, hc⟩ := h
  rw [← hc]

theorem map_cpl3_try_numero {d : Json} {c : CPLDevastador}
    (h : map_cpl3_try d = .ok c) : c.numero = 3 := by
  unfold map_cpl3_try at h
  simp only [exbind_ok, expure_ok] at h
  obtain ⟨a1, -, a2, -, a3, -, a4, -, a5, -, a6, -, a7, -, a8, -, hc⟩ := h
  rw [← hc]

theorem map_cpl3_exc_numero {d : Json} {c : CPLDevastador}
    (h : map_cpl3_exc d = .ok c) : c.numero = 3 := by
  unfold map_cpl3_exc at h
  simp only [exbind_ok, expure_ok] at h
  obtain ⟨a1, -, a2, -, a3, -, a4, -, a5, -, a6, -, a7, -, a8, -, hc⟩ := h
  rw [← hc]

theorem map_cpl4_try_numero {d : Json} {c : CPLDevastador}
    (h : map_cpl4_try d = .ok c) : c.numero = 4 := by
  unfold map_cpl4_try at h
  simp only [exbind_ok, expure_ok] at h
  obtain ⟨a1, -, a2, -, a3, -, a4, -, a5, -, a6, -, a7, -, a8, -, hc⟩ := h
  rw [← hc]

theorem map_cpl4_exc_numero {d : Json} {c : CPLDevastador}
    (h : map_cpl4_exc d = .ok c) : c.numero = 4 := by
  unfold map_cpl4_exc at h
  simp only [exbind_ok, expure_ok] at h
  obtain ⟨a1, -, a2, -, a3, -, a4, -, a5, -, a6, -, a7, -, a8, -, hc⟩ := h
  rw [← hc]

/-- The unit produced by the shared phase skeleton always carries the number
set by its two mappers. -/
theorem fase_generic_numero {g : GenBehavior} {p : Str}
    {mT mE : Json → Except PErr CPLDevastador} {k : Nat}
    {c : CPLDevastador} {d : Option Json}
    (hT : ∀ d c, mT d = .ok c → c.numero = k)
    (hE : ∀ d c, mE d = .ok c → c.numero = k)
    (h : fase_generic g p mT mE = .ok (c, d)) : c.numero = k := by
  unfold fase_generic at h
  cases hft : fase_try g p mT with
  | ok cd =>
    obtain ⟨c1, d1⟩ := cd
    rw [hft] at h
    dsimp only at h
    injection h with hp
    injection hp with hc hd
    subst hc
    exact hT d1 _ (fase_try_ok hft)
  | error e1 =>
    rw [hft] at h
    dsimp only at h
    cases hld : jsonLoadsExc (generate_fallback_response p) PErr.jsonDecodeError with
    | error e2 =>
      rw [hld] at h
      simp at h
    | ok dd =>
      rw [hld] at h
      dsimp only at h
      cases hme : mE dd with
      | ok c1 =>
        rw [hme] at h
        dsimp only at h
        injection h with hp
        injection hp with hc hd
        subst hc
        exact hE dd _ hme
      | error e2 =>
        rw [hme] at h
        simp at h

theorem fase_2_numero {g : GenBehavior} {e : EventoMagnetico}
    {c : CPLDevastador} {d : Option Json}
    (h : fase_2_cpl1_oportunidade g e = .ok (c, d)) : c.numero = 1 := by
  unfold fase_2_cpl1_oportunidade at h
  obtain ⟨p, -, hg⟩ := exbind_ok.mp h
  exact fase_generic_numero (fun d c h => map_cpl1_try_numero h)
    (fun d c h => map_cpl1_exc_numero h) hg

theorem fase_3_numero {g : GenBehavior} {c0 : CPLDevastador}
    {c : CPLDevastador} {d : Option Json}
    (h : fase_3_cpl2_transformacao g c0 = .ok (c, d)) : c.numero = 2 := by
  unfold fase_3_cpl2_transformacao at h
  obtain ⟨p, -, hg⟩ := exbind_ok.mp h
  exact fase_generic_numero (fun d c h => map_cpl2_try_numero h)
    (fun d c h => map_cpl2_exc_numero h) hg

theorem fase_4_numero {g : GenBehavior} {c0 : CPLDevastador}
    {c : CPLDevastador} {d : Option Json}
    (h : fase_4_cpl3_caminho g c0 = .ok (c, d)) : c.numero = 3 := by
  unfold fase_4_cpl3_caminho at h
  exact fase_generic_numero (fun d c h => map_cpl3_try_numero h)
    (fun d c h => map_cpl3_exc_numero h) h

theorem fase_5_numero {g : GenBehavior} {c0 : CPLDevastador}
    {c : CPLDevastador} {d : Option Json}
    (h : fase_5_cpl4_decisao g c0 = .ok (c, d)) : c.numero = 4 := by
  unfold fase_5_cpl4_decisao at h
  exact fase_generic_numero (fun d c h => map_cpl4_try_numero h)
    (fun d c h => map_cpl4_exc_numero h) h

/-- Claim C3 (counterexample): the prompt built for unit 3 does not
incorporate unit 2 — two different unit-2 values yield the same prompt. -/
theorem c3_counterexample :
    prompt_fase4 cplDummy = prompt_fase4 cpl2Fb ∧ cplDummy ≠ cpl2Fb := by
  refine ⟨rfl, fun h => ?_⟩
  have h2 := congrArg CPLDevastador.numero h
  exact absurd h2 (by decide)

/-- Claim C3 (amended): unit 1's open-loops list is a required input of unit
2's prompt (the comma-joined list is a substring of the built prompt); the
four units are numbered 1-4 in generation order; but the prompts for units 3
and 4 are fixed templates independent of the preceding unit. -/
theorem c3_amended_chaining :
    (∀ (c : CPLDevastador) (ls : Str), joinCommaE c.loops_abertos = .ok ls →
      prompt_fase3 c = .ok (tpl_fase3_0 ++ ls ++ tpl_fase3_1) ∧
      infixOf ls (tpl_fase3_0 ++ ls ++ tpl_fase3_1) = true) ∧
    (∀ (g : GenBehavior) (e : EventoMagnetico) c d,
      fase_2_cpl1_oportunidade g e = .ok (c, d) → c.numero = 1) ∧
    (∀ (g : GenBehavior) (c0 : CPLDevastador) c d,
      fase_3_cpl2_transformacao g c0 = .ok (c, d) → c.numero = 2) ∧
    (∀ (g : GenBehavior) (c0 : CPLDevastador) c d,
      fase_4_cpl3_caminho g c0 = .ok (c, d) → c.numero = 3) ∧
    (∀ (g : GenBehavior) (c0 : CPLDevastador) c d,
      fase_5_cpl4_decisao g c0 = .ok (c, d) → c.numero = 4) ∧
    (∀ cA cB : CPLDevastador, prompt_fase4 cA = prompt_fase4 cB) ∧
    (∀ cA cB : CPLDevastador, prompt_fase5 cA = prompt_fase5 cB) := by
  refine ⟨?_, ?_, ?_, ?_, ?_, ?_, ?_⟩
  · intro c ls h
    constructor
    · unfold prompt_fase3
      rw [h]
      rfl
    · exact infixOf_middle ls tpl_fase3_0 tpl_fase3_1
  · intro g e c d h
    exact fase_2_numero h
  · intro g c0 c d h
    exact fase_3_numero h
  · intro g c0 c d h
    exact fase_4_numero h
  · intro g c0 c d h
    exact fase_5_numero h
  · intro cA cB
    rfl
  · intro cA cB
    rfl

/-- The comma-joined open-loops list of the fallback unit 1. -/
def scenarioLoops : Str :=
  match joinCommaE cpl1Fb.loops_abertos with
  | .ok l => l
  | .error _ => []

/-- Claim C3 (witness): the amended theorem instantiated at the fallback
unit 1 of the concrete scenario. -/
theorem c3_witness :
    prompt_fase3 cpl1Fb = .ok (tpl_fase3_0 ++ scenarioLoops ++ tpl_fase3_1) ∧
    infixOf scenarioLoops (tpl_fase3_0 ++ scenarioLoops ++ tpl_fase3_1) = true :=
  c3_amended_chaining.1 cpl1Fb scenarioLoops (by rfl)

/-! ### No phase of the pipeline fails with a bare `Exception` (`PErr.exc`):
escaping phase errors are `KeyError`/`TypeError`/`AttributeError`/JSON decode
errors, so the two boundary aborts are identifiable by their messages. -/

def NoExcErr {α : Type} (x : Except PErr α) : Prop :=
  ∀ m, x ≠ .error (.exc m)

theorem bindE_noExc {α β : Type} {x : Except PErr α} {f : α → Except PErr β}
    (hx : NoExcErr x) (hf : ∀ a, NoExcErr (f a)) : NoExcErr (x >>= f) := by
  intro m h
  cases x with
  | error e =>
    simp [Bind.bind, Except.bind] at h
    exact hx m (by rw [h])
  | ok a =>
    simp [Bind.bind, Except.bind] at h
    exact hf a m h

theorem pure_noExc {α : Type} (a : α) : NoExcErr (pure a : Except PErr α) := by
  intro m h
  simp [pure, Except.pure] at h

theorem getItemE_noExc (j : Json) (k : Str) : NoExcErr (getItemE j k) := by
  intro m h
  unfold getItemE at h
  cases j with
  | obj kvs =>
    dsimp only at h
    cases hl : jlookup kvs k <;> rw [hl] at h <;> simp at h
  | str s => simp at h
  | b v => simp at h
  | null => simp at h
  | num n => simp at h
  | arr xs => simp at h

theorem dictGet_noExc (j : Json) (k : Str) (d : Json) : NoExcErr (dictGet j k d) := by
  intro m h
  unfold dictGet at h
  cases j <;> simp at h

theorem asStrE_noExc (j : Json) : NoExcErr (asStrE j) := by
  intro m h
  unfold asStrE at h
  cases j <;> simp at h

theorem mapStrList_noExc (l : List Json) : NoExcErr (mapStrList l) := by
  induction l with
  | nil =>
    intro m h
    simp [mapStrList] at h
  | cons x xs ih =>
    exact bindE_noExc (asStrE_noExc x) (fun s => bindE_noExc ih (fun r => pure_noExc _))

theorem mapE_noExc {α β : Type} {x : Except PErr α} (f : α → β)
    (hx : NoExcErr x) : NoExcErr (Except.map f x) := by
  intro m h
  cases x with
  | error e =>
    simp [Except.map] at h
    exact hx m (by rw [h])
  | ok a => simp [Except.map] at h

theorem joinCommaE_noExc (j : Json) : NoExcErr (joinCommaE j) := by
  unfold joinCommaE
  cases j with
  | arr xs => exact mapE_noExc joinComma (mapStrList_noExc xs)
  | str s => intro m h; simp at h
  | b v => intro m h; simp at h
  | null => intro m h; simp at h
  | num n => intro m h; simp at h
  | obj kvs => intro m h; simp at h

theorem jsonLoadsExcD_noExc (s : Str) : NoExcErr (jsonLoadsExc s .jsonDecodeError) := by
  intro m h
  unfold jsonLoadsExc at h
  cases hl : jsonLoads s <;> rw [hl] at h <;> simp at h

theorem map_evento_noExc (d : Json) : NoExcErr (map_evento d) := by
  unfold map_evento
  exact bindE_noExc (getItemE_noExc _ _) (fun a1 =>
    bindE_noExc (getItemE_noExc _ _) (fun a2 =>
      bindE_noExc (getItemE_noExc _ _) (fun a3 =>
        bindE_noExc (getItemE_noExc _ _) (fun a4 =>
          bindE_noExc (getItemE_noExc _ _) (fun a5 => pure_noExc _)))))

theorem map_cpl1_exc_noExc (d : Json) : NoExcErr (map_cpl1_exc d) := by
  unfold map_cpl1_exc
  exact bindE_noExc (getItemE_noExc _ _) (fun a1 =>
    bindE_noExc (getItemE_noExc _ _) (fun a2 =>
      bindE_noExc (getItemE_noExc _ _) (fun a3 =>
        bindE_noExc (getItemE_noExc _ _) (fun a4 =>
          bindE_noExc (getItemE_noExc _ _) (fun a5 =>
            bindE_noExc (getItemE_noExc _ _) (fun a6 =>
              bindE_noExc (getItemE_noExc _ _) (fun a7 =>
                bindE_noExc (getItemE_noExc _ _) (fun a8 =>
                  bindE_noExc (getItemE_noExc _ _) (fun a9 => pure_noExc _)))))))))

theorem map_cpl2_exc_noExc (d : Json) : NoExcErr (map_cpl2_exc d) := by
  unfold map_cpl2_exc
  exact bindE_noExc (getItemE_noExc _ _) (fun a1 =>
    bindE_noExc (getItemE_noExc _ _) (fun a2 =>
      bindE_noExc (getItemE_noExc _ _) (fun a3 =>
        bindE_noExc (dictGet_noExc _ _ _) (fun a4 =>
          bindE_noExc (dictGet_noExc _ _ _) (fun a5 =>
            bindE_noExc (dictGet_noExc _ _ _) (fun a6 =>
              bindE_noExc (getItemE_noExc _ _) (fun a7 =>
                bindE_noExc (getItemE_noExc _ _) (fun a8 =>
                  bindE_noExc (getItemE_noExc _ _) (fun a9 => pure_noExc _)))))))))

theorem map_cpl3_exc_noExc (d : Json) : NoExcErr (map_cpl3_exc d) := by
  unfold map_cpl3_exc
  exact bindE_noExc (getItemE_noExc _ _) (fun a1 =>
    bindE_noExc (getItemE_noExc _ _) (fun a2 =>
      bindE_noExc (dictGet_noExc _ _ _) (fun a3 =>
        bindE_noExc (dictGet_noExc _ _ _) (fun a4 =>
          bindE_noExc (dictGet_noExc _ _ _) (fun a5 =>
            bindE_noExc (getItemE_noExc _ _) (fun a6 =>
              bindE_noExc (getItemE_noExc _ _) (fun a7 =>
                bindE_noExc (getItemE_noExc _ _) (fun a8 => pure_noExc _))))))))

theorem map_cpl4_exc_noExc (d : Json) : NoExcErr (map_cpl4_exc d) := by
  unfold map_cpl4_exc
  exact bindE_noExc (getItemE_noExc _ _) (fun a1 =>
    bindE_noExc (getItemE_noExc _ _) (fun a2 =>
      bindE_noExc (dictGet_noExc _ _ _) (fun a3 =>
        bindE_noExc (dictGet_noExc _ _ _) (fun a4 =>
          bindE_noExc (dictGet_noExc _ _ _) (fun a5 =>
            bindE_noExc (getItemE_noExc _ _) (fun a6 =>
              bindE_noExc (getItemE_noExc _ _) (fun a7 =>
                bindE_noExc (getItemE_noExc _ _) (fun a8 => pure_noExc _))))))))

theorem prompt_fase2_noExc (e : EventoMagnetico) : NoExcErr (prompt_fase2 e) := by
  unfold prompt_fase2
  exact bindE_noExc (dictGet_noExc _ _ _) (fun a => pure_noExc _)

theorem prompt_fase3_noExc (c : CPLDevastador) : NoExcErr (prompt_fase3 c) := by
  unfold prompt_fase3
  exact bindE_noExc (joinCommaE_noExc _) (fun a => pure_noExc _)

theorem jsonLoadsExcD_error_shape {s : Str} {e : PErr}
    (h : jsonLoadsExc s .jsonDecodeError = .error e) : e = .jsonDecodeError := by
  unfold jsonLoadsExc at h
  cases hl : jsonLoads s <;> rw [hl] at h
  · dsimp only at h
    injection h with he
    exact he.symm
  · simp at h

theorem fase_generic_noExc {g : GenBehavior} {p : Str}
    {mT mE : Json → Except PErr CPLDevastador}
    (hE : ∀ d, NoExcErr (mE d)) : NoExcErr (fase_generic g p mT mE) := by
  intro m h
  unfold fase_generic at h
  cases hft : fase_try g p mT with
  | ok cd =>
    obtain ⟨c1, d1⟩ := cd
    rw [hft] at h
    simp at h
  | error e1 =>
    rw [hft] at h
    dsimp only at h
    cases hld : jsonLoadsExc (generate_fallback_response p) PErr.jsonDecodeError with
    | error e2 =>
      rw [hld] at h
      have := jsonLoadsExcD_error_shape hld
      subst this
      simp at h
    | ok dd =>
      rw [hld] at h
      dsimp only at h
      cases hme : mE dd with
      | ok c1 =>
        rw [hme] at h
        simp at h
      | error e2 =>
        rw [hme] at h
        dsimp only at h
        injection h with he
        exact hE dd m (by rw [hme, he])

theorem fase_1_noExc (g : GenBehavior) (p : Str) :
    NoExcErr (fase_1_arquitetura_evento g p) := by
  intro m h
  unfold fase_1_arquitetura_evento at h
  cases hft : fase_1_try g with
  | ok cd =>
    obtain ⟨ev, d1⟩ := cd
    rw [hft] at h
    simp at h
  | error e1 =>
    rw [hft] at h
    dsimp only at h
    cases hld : jsonLoadsExc (generate_fallback_response p) PErr.jsonDecodeError with
    | error e2 =>
      rw [hld] at h
      have := jsonLoadsExcD_error_shape hld
      subst this
      simp at h
    | ok dd =>
      rw [hld] at h
      dsimp only at h
      cases hme : map_evento dd with
      | ok ev =>
        rw [hme] at h
        simp at h
      | error e2 =>
        rw [hme] at h
        dsimp only at h
        injection h with he
        exact map_evento_noExc dd m (by rw [hme, he])

theorem fase_2_noExc (g : GenBehavior) (e : EventoMagnetico) :
    NoExcErr (fase_2_cpl1_oportunidade g e) := by
  unfold fase_2_cpl1_oportunidade
  exact bindE_noExc (prompt_fase2_noExc e)
    (fun p => fase_generic_noExc (fun d => map_cpl1_exc_noExc d))

theorem fase_3_noExc (g : GenBehavior) (c : CPLDevastador) :
    NoExcErr (fase_3_cpl2_transformacao g c) := by
  unfold fase_3_cpl2_transformacao
  exact bindE_noExc (prompt_fase3_noExc c)
    (fun p => fase_generic_noExc (fun d => map_cpl2_exc_noExc d))

theorem fase_4_noExc (g : GenBehavior) (c : CPLDevastador) :
    NoExcErr (fase_4_cpl3_caminho g c) := by
  unfold fase_4_cpl3_caminho
  exact fase_generic_noExc (fun d => map_cpl3_exc_noExc d)

theorem fase_5_noExc (g : GenBehavior) (c : CPLDevastador) :
    NoExcErr (fase_5_cpl4_decisao g c) := by
  unfold fase_5_cpl4_decisao
  exact fase_generic_noExc (fun d => map_cpl4_exc_noExc d)

/-- A bare-`Exception` outcome of the pipeline can only be the mandatory-search
abort or the data-sufficiency abort. -/
theorem executar_error_exc {w : World} {storeOk : Bool} {t s p sid : Str} {m : Str}
    (h : (executar_protocolo_completo w storeOk t s p sid).1 = .error (.exc m)) :
    m = msgSearchObrigatorio ∨
    (m = msgDadosInsuficientes ∧
      validar_dados_coletados (salvar_dados_contextuais w.ctxWriteOk w.fsOnFail
        (definir_contexto_busca w.enrich t s p) sid) = false) := by
  unfold executar_protocolo_completo at h
  split at h
  · injection h with he
    injection he with hm
    exact Or.inl hm.symm
  · rename_i sr heqs
    dsimp only at h
    split at h
    · rename_i hcond
      injection h with he
      injection he with hm
      refine Or.inr ⟨hm.symm, ?_⟩
      simpa using hcond
    · rename_i hcond
      exfalso
      cases h1 : fase_1_arquitetura_evento w.gen1
          (prompt_fase1 (definir_contexto_busca w.enrich t s p)) with
      | error e1 =>
        rw [h1] at h
        try dsimp only at h
        injection h with he
        exact fase_1_noExc w.gen1 _ m (by rw [h1, he])
      | ok p1 =>
        obtain ⟨evento, d1⟩ := p1
        rw [h1] at h
        try dsimp only at h
        cases h2 : fase_2_cpl1_oportunidade w.gen2 evento with
        | error e2 =>
          rw [h2] at h
          try dsimp only at h
          injection h with he
          exact fase_2_noExc w.gen2 evento m (by rw [h2, he])
        | ok p2 =>
          obtain ⟨cpl1, d2⟩ := p2
          rw [h2] at h
          try dsimp only at h
          cases h3 : fase_3_cpl2_transformacao w.gen3 cpl1 with
          | error e3 =>
            rw [h3] at h
            try dsimp only at h
            injection h with he
            exact fase_3_noExc w.gen3 cpl1 m (by rw [h3, he])
          | ok p3 =>
            obtain ⟨cpl2, d3⟩ := p3
            rw [h3] at h
            try dsimp only at h
            cases h4 : fase_4_cpl3_caminho w.gen4 cpl2 with
            | error e4 =>
              rw [h4] at h
              try dsimp only at h
              injection h with he
              exact fase_4_noExc w.gen4 cpl2 m (by rw [h4, he])
            | ok p4 =>
              obtain ⟨cpl3, d4⟩ := p4
              rw [h4] at h
              try dsimp only at h
              cases h5 : fase_5_cpl4_decisao w.gen5 cpl3 with
              | error e5 =>
                rw [h5] at h
                try dsimp only at h
                injection h with he
                exact fase_5_noExc w.gen5 cpl3 m (by rw [h5, he])
              | ok p5 =>
                obtain ⟨cpl4, d5⟩ := p5
                rw [h5] at h
                simp at h

/-- Claim C7: `_validar_dados_coletados` returns true iff at least 2 of the 4
critical artifact files exist with size strictly greater than 20 bytes, and
(given the mandatory search collaborator is present) the pipeline aborts with
the insufficient-data error exactly when this check returns false. -/
theorem c7_sufficiency_gate :
    (∀ fs : CtxFS, validar_dados_coletados fs = true ↔
      2 ≤ [fs.termos, fs.objecoes, fs.casos, fs.tendencias].countP valid_file) ∧
    (∀ (w : World) (storeOk : Bool) (t s p sid : Str) (sr : Json), w.search = some sr →
      ((executar_protocolo_completo w storeOk t s p sid).1
          = .error (.exc msgDadosInsuficientes) ↔
        validar_dados_coletados (salvar_dados_contextuais w.ctxWriteOk w.fsOnFail
          (definir_contexto_busca w.enrich t s p) sid) = false)) := by
  have key : ∀ (l : List (Option Nat)) (a : Nat),
      l.foldl (fun acc f => if valid_file f then acc + 1 else acc) a
        = a + l.countP valid_file := by
    intro l
    induction l with
    | nil => intro a; simp
    | cons x xs ih =>
      intro a
      cases hx : valid_file x
      · simp [List.countP_cons, hx, ih]
      · simp [List.countP_cons, hx, ih]
        omega
  constructor
  · intro fs
    unfold validar_dados_coletados
    rw [key]
    simp [decide_eq_true_eq]
  · intro w storeOk t s p sid sr hsr
    constructor
    · intro h
      rcases executar_error_exc h with hm | ⟨-, hv⟩
      · exact absurd hm (by decide)
      · exact hv
    · intro hv
      unfold executar_protocolo_completo
      rw [hsr]
      dsimp only
      rw [hv]
      rfl

/-- Claim C7 (witness): the iff instantiated at a concrete world with the
search collaborator present. -/
theorem c7_witness :
    ((executar_protocolo_completo worldEmpty true temaEx segmentoEx publicoEx sidEx).1
        = .error (.exc msgDadosInsuficientes) ↔
      validar_dados_coletados (salvar_dados_contextuais worldEmpty.ctxWriteOk
        worldEmpty.fsOnFail (definir_contexto_busca worldEmpty.enrich temaEx segmentoEx
          publicoEx) sidEx) = false) :=
  c7_sufficiency_gate.2 worldEmpty true temaEx segmentoEx publicoEx sidEx (Json.obj []) rfl

/-- Claim C8: when the mandatory search collaborator is absent, the pipeline
aborts before any phase runs with no record written, and the job-runner
thread persists exactly one error marker carrying the collection-abort
message; no PipelineResult record exists. -/
theorem c8_search_absent_single_error_marker :
    ∀ (w : World) (storeOk : Bool) (t s p sid : Str), w.search = none →
    executar_protocolo_completo w storeOk t s p sid
      = (.error (.exc msgSearchObrigatorio), []) ∧
    execute_cpl_devastador_thread true w storeOk t s p sid
      = [⟨str "cpl_devastador_erro", msgSearchObrigatorio⟩] := by
  intro w storeOk t s p sid hs
  have h1 : executar_protocolo_completo w storeOk t s p sid
      = (.error (.exc msgSearchObrigatorio), []) := by
    unfold executar_protocolo_completo
    rw [hs]
  refine ⟨h1, ?_⟩
  unfold execute_cpl_devastador_thread
  rw [h1]
  rfl

/-- Claim C8 (witness): the statement at the concrete no-search world. -/
theorem c8_witness :
    executar_protocolo_completo worldNoSearch true temaEx segmentoEx publicoEx sidEx
      = (.error (.exc msgSearchObrigatorio), []) ∧
    execute_cpl_devastador_thread true worldNoSearch true temaEx segmentoEx publicoEx sidEx
      = [⟨str "cpl_devastador_erro", msgSearchObrigatorio⟩] :=
  c8_search_absent_single_error_marker worldNoSearch true temaEx segmentoEx publicoEx sidEx rfl

/-- Claim C9 (amended): a store-write failure never changes the pipeline
outcome — `_salvar_fase` and the final save helpers swallow write errors, so
the controller proceeds identically whether or not persistence succeeds. -/
theorem c9_amended_store_failure_nonfatal :
    ∀ (w : World) (t s p sid : Str),
    (executar_protocolo_completo w true t s p sid).1
      = (executar_protocolo_completo w false t s p sid).1 := by
  intro w t s p sid
  unfold executar_protocolo_completo
  cases hsr : w.search with
  | none => rfl
  | some sr =>
    dsimp only
    cases hv : validar_dados_coletados (salvar_dados_contextuais w.ctxWriteOk w.fsOnFail
        (definir_contexto_busca w.enrich t s p) sid)
    · rfl
    · cases h1 : fase_1_arquitetura_evento w.gen1
          (prompt_fase1 (definir_contexto_busca w.enrich t s p)) with
      | error e1 => rfl
      | ok p1 =>
        obtain ⟨evento, d1⟩ := p1
        dsimp only
        cases h2 : fase_2_cpl1_oportunidade w.gen2 evento with
        | error e2 => rfl
        | ok p2 =>
          obtain ⟨cpl1, d2⟩ := p2
          dsimp only
          cases h3 : fase_3_cpl2_transformacao w.gen3 cpl1 with
          | error e3 => rfl
          | ok p3 =>
            obtain ⟨cpl2, d3⟩ := p3
            dsimp only
            cases h4 : fase_4_cpl3_caminho w.gen4 cpl2 with
            | error e4 => rfl
            | ok p4 =>
              obtain ⟨cpl3, d4⟩ := p4
              dsimp only
              cases h5 : fase_5_cpl4_decisao w.gen5 cpl3 with
              | error e5 => rfl
              | ok p5 => rfl

/-- Each of the four contextual artifact files always exceeds 20 bytes. -/
theorem ctx_files_large :
    ∀ (c : ContextoEstrategico) (sid : Str),
    20 < byteLen (termos_chave_file c sid) ∧ 20 < byteLen (objecoes_file c) ∧
    20 < byteLen (casos_file c) ∧ 20 < byteLen (tendencias_file c) := by
  intro c sid
  have hA : byteLen (str "# Termos-chave\n\n") = 16 := by decide
  have hB : byteLen (str "\n\n## Contexto\n- Sessão: ") = 25 := by decide
  have hC : byteLen (str "# Objeções\n\n") = 14 := by decide
  have hD : byteLen (str "\n\n## Total: ") = 12 := by decide
  have hE : byteLen (str "# Casos de Sucesso\n\n") = 20 := by decide
  have hF : byteLen (str "# Tendências\n\n") = 15 := by decide
  refine ⟨?_, ?_, ?_, ?_⟩
  · simp only [termos_chave_file, byteLen_append]
    omega
  · simp only [objecoes_file, byteLen_append]
    omega
  · simp only [casos_file, byteLen_append]
    omega
  · simp only [tendencias_file, byteLen_append]
    omega

/-- After a successful `_salvar_dados_contextuais`, the sufficiency check
always passes. -/
theorem validar_after_salvar :
    ∀ (fsF : CtxFS) (c : ContextoEstrategico) (sid : Str),
    validar_dados_coletados (salvar_dados_contextuais true fsF c sid) = true := by
  intro fsF c sid
  obtain ⟨h1, h2, h3, h4⟩ := ctx_files_large c sid
  simp [salvar_dados_contextuais, validar_dados_coletados, valid_file, h1, h2, h3, h4]

/-- Claim C10: for every StrategicContext, when the contextual writes succeed
each of the four artifact files exceeds 20 bytes (empty lists are replaced by
non-empty defaults and every file carries a header), so the sufficiency check
passes and the insufficient-data abort is unreachable. -/
theorem c10_contextual_persistence_sufficient :
    (∀ (fsF : CtxFS) (c : ContextoEstrategico) (sid : Str),
      validar_dados_coletados (salvar_dados_contextuais true fsF c sid) = true) ∧
    (∀ (w : World) (storeOk : Bool) (t s p sid : Str), w.ctxWriteOk = true →
      (executar_protocolo_completo w storeOk t s p sid).1
        ≠ .error (.exc msgDadosInsuficientes)) := by
  refine ⟨validar_after_salvar, ?_⟩
  intro w storeOk t s p sid hctx h
  rcases executar_error_exc h with hm | ⟨-, hv⟩
  · exact absurd hm (by decide)
  · rw [hctx, validar_after_salvar] at hv
    exact Bool.noConfusion hv

/-- Claim C10 (witness): the unreachability statement at a concrete world
whose contextual writes succeed. -/
theorem c10_witness :
    (executar_protocolo_completo worldEmpty true temaEx segmentoEx publicoEx sidEx).1
      ≠ .error (.exc msgDadosInsuficientes) :=
  c10_contextual_persistence_sufficient.2 worldEmpty true temaEx segmentoEx publicoEx sidEx rfl
